import Mathlib

set_option maxRecDepth 16000

/-!
Shallow embedding of the fastvlq variable-length integer codec
(src/macros.rs, src/vu32.rs, src/vu64.rs, src/vu128.rs, src/vi32.rs,
src/vi64.rs, src/vi128.rs).

Machine integers are modelled as `Nat` (unsigned) or `Int` (signed values),
with explicit `% 2^w` wherever the Rust code casts or where an arithmetic
operation can exceed the width.  Arithmetic that can under- or overflow is
modelled with release-mode (two's-complement wrapping) semantics: a
subtraction `a - b` on a `uW` becomes `(a + 2^w - b) % 2^w` (`subWrap`),
and additions that can exceed the width carry a `% 2^w`.  Wherever the
surrounding guard makes underflow and overflow impossible these reduce to the
plain operations.  Byte buffers are `List Nat` of the fixed Rust array
sizes (5 / 9 / 18), indexed with `getD` (out-of-range reads yield 0, which
never happens on the fixed-size buffers the code builds).
-/

/-- Leading-zero count of an 8-bit byte, modelling `u8::leading_zeros`
(for `n < 256`): the position of the highest set bit, counted from the
top of the byte. -/
def clz8 (n : Nat) : Nat :=
  if 128 ≤ n then 0
  else if 64 ≤ n then 1
  else if 32 ≤ n then 2
  else if 16 ≤ n then 3
  else if 8 ≤ n then 4
  else if 4 ≤ n then 5
  else if 2 ≤ n then 6
  else if 1 ≤ n then 7
  else 8

/-- Offset for length 2, from `offset!(2)` in src/macros.rs: `1 << 7`. -/
def offset2 : Nat := 2 ^ 7

/-- Offset for length 3: `offset!(2) + (1 << 14)`. -/
def offset3 : Nat := offset2 + 2 ^ 14

/-- Offset for length 4: `offset!(3) + (1 << 21)`. -/
def offset4 : Nat := offset3 + 2 ^ 21

/-- Offset for length 5: `offset!(4) + (1 << 28)`. -/
def offset5 : Nat := offset4 + 2 ^ 28

/-- Offset for length 6: `offset!(5) + (1 << 35)`. -/
def offset6 : Nat := offset5 + 2 ^ 35

/-- Offset for length 7: `offset!(6) + (1 << 42)`. -/
def offset7 : Nat := offset6 + 2 ^ 42

/-- Offset for length 8: `offset!(7) + (1 << 49)`. -/
def offset8 : Nat := offset7 + 2 ^ 49

/-- Offset for length 9: `offset!(8) + (1 << 56)`. -/
def offset9 : Nat := offset8 + 2 ^ 56

/-- Offset for length 10 (u128 extended): `offset!(9) + (1 << 64)`. -/
def offset10 : Nat := offset9 + 2 ^ 64

/-- Offset for length 11: `offset!(10) + (1 << 71)`. -/
def offset11 : Nat := offset10 + 2 ^ 71

/-- Offset for length 12: `offset!(11) + (1 << 78)`. -/
def offset12 : Nat := offset11 + 2 ^ 78

/-- Offset for length 13: `offset!(12) + (1 << 85)`. -/
def offset13 : Nat := offset12 + 2 ^ 85

/-- Offset for length 14: `offset!(13) + (1 << 92)`. -/
def offset14 : Nat := offset13 + 2 ^ 92

/-- Offset for length 15: `offset!(14) + (1 << 99)`. -/
def offset15 : Nat := offset14 + 2 ^ 99

/-- Offset for length 16: `offset!(15) + (1 << 106)`. -/
def offset16 : Nat := offset15 + 2 ^ 106

/-- Offset for length 17: `offset!(16) + (1 << 113)`. -/
def offset17 : Nat := offset16 + 2 ^ 113

/-- Marker insertion into the leading byte, modelling the two-argument
arms of the `prefix!` macro in src/macros.rs (mask the payload bits that
fit, then set the single marker bit; lengths 8 and 9 have constant
leading-byte contributions). -/
def mark (L t : Nat) : Nat :=
  match L with
  | 1 => t ||| 128
  | 2 => (63 &&& t) ||| 64
  | 3 => (31 &&& t) ||| 32
  | 4 => (15 &&& t) ||| 16
  | 5 => (7 &&& t) ||| 8
  | 6 => (3 &&& t) ||| 4
  | 7 => (1 &&& t) ||| 2
  | 8 => 1
  | _ => 0

/-- Marker removal from the leading byte, modelling the `unprefix!` macro
in src/macros.rs. -/
def unmark (L t : Nat) : Nat :=
  match L with
  | 1 => t &&& 127
  | 2 => t &&& 63
  | 3 => t &&& 31
  | 4 => t &&& 15
  | 5 => t &&& 7
  | 6 => t &&& 3
  | 7 => t &&& 1
  | _ => 0

/-- Wrapping subtraction on a `w`-bit unsigned integer (release-mode Rust
semantics); for `b ≤ a < 2^w` this is the exact difference `a - b`. -/
def subWrap (w a b : Nat) : Nat := (a + 2 ^ w - b) % 2 ^ w

/-- Little-endian reassembly of a byte list, modelling `uN::from_le_bytes`
(first list element is the least significant byte). -/
def leVal : List Nat → Nat
  | [] => 0
  | b :: rest => b + 256 * leVal rest

/-- Decoded length from the first byte for u32, from `decode_len_vu32` in
src/vu32.rs: leading-zero count plus one, capped at 5. -/
def decode_len_vu32 (n : Nat) : Nat :=
  let len := clz8 n + 1
  if len > 5 then 5 else len

/-- Encoded length for u32, from `encode_len_vu32` in src/vu32.rs. -/
def encode_len_vu32 (n : Nat) : Nat :=
  if n < offset2 then 1
  else if n < offset3 then 2
  else if n < offset4 then 3
  else if n < offset5 then 4
  else 5

/-- Length-1 arm of `encode_vu32` (src/vu32.rs). -/
def encode_vu32_b1 (n : Nat) : List Nat :=
  [mark 1 (n % 256),
   0,
   0,
   0,
   0]

/-- Length-2 arm of `encode_vu32` (src/vu32.rs). -/
def encode_vu32_b2 (n : Nat) : List Nat :=
  [mark 2 (subWrap 16 (n % 2 ^ 16) offset2 / 2 ^ 8 % 256),
   subWrap 16 (n % 2 ^ 16) offset2 % 256,
   0,
   0,
   0]

/-- Length-3 arm of `encode_vu32` (src/vu32.rs). -/
def encode_vu32_b3 (n : Nat) : List Nat :=
  [mark 3 (subWrap 32 n offset3 * 2 ^ 8 % 2 ^ 32 / 2 ^ 24 % 256),
   subWrap 32 n offset3 * 2 ^ 8 % 2 ^ 32 / 2 ^ 16 % 256,
   subWrap 32 n offset3 * 2 ^ 8 % 2 ^ 32 / 2 ^ 8 % 256,
   0,
   0]

/-- Length-4 arm of `encode_vu32` (src/vu32.rs). -/
def encode_vu32_b4 (n : Nat) : List Nat :=
  [mark 4 (subWrap 32 n offset4 / 2 ^ 24 % 256),
   subWrap 32 n offset4 / 2 ^ 16 % 256,
   subWrap 32 n offset4 / 2 ^ 8 % 256,
   subWrap 32 n offset4 % 256,
   0]

/-- Length-5 arm of `encode_vu32` (src/vu32.rs). -/
def encode_vu32_b5 (n : Nat) : List Nat :=
  [mark 5 (subWrap 64 n offset5 * 2 ^ 24 % 2 ^ 64 / 2 ^ 56 % 256),
   subWrap 64 n offset5 * 2 ^ 24 % 2 ^ 64 / 2 ^ 48 % 256,
   subWrap 64 n offset5 * 2 ^ 24 % 2 ^ 64 / 2 ^ 40 % 256,
   subWrap 64 n offset5 * 2 ^ 24 % 2 ^ 64 / 2 ^ 32 % 256,
   subWrap 64 n offset5 * 2 ^ 24 % 2 ^ 64 / 2 ^ 24 % 256]

/-- Encoder for u32, from `encode_vu32` in src/vu32.rs; dispatches on the
encoded length exactly as the source `match`, with one definition per arm. -/
def encode_vu32 (n : Nat) : List Nat :=
  if encode_len_vu32 n = 1 then encode_vu32_b1 n
  else if encode_len_vu32 n = 2 then encode_vu32_b2 n
  else if encode_len_vu32 n = 3 then encode_vu32_b3 n
  else if encode_len_vu32 n = 4 then encode_vu32_b4 n
  else encode_vu32_b5 n

/-- Decoder for u32, from `decode_vu32` in src/vu32.rs; additions are u32
(length ≤ 4) or u64-then-cast (length 5), hence the `% 2^32`. -/
def decode_vu32 (b : List Nat) : Nat :=
  let len := decode_len_vu32 (b.getD 0 0)
  if len = 1 then unmark 1 (b.getD 0 0)
  else if len = 2 then
    (leVal [b.getD 1 0, unmark 2 (b.getD 0 0)] + offset2) % 2 ^ 32
  else if len = 3 then
    (leVal [b.getD 2 0, b.getD 1 0, unmark 3 (b.getD 0 0)] + offset3) % 2 ^ 32
  else if len = 4 then
    (leVal [b.getD 3 0, b.getD 2 0, b.getD 1 0, unmark 4 (b.getD 0 0)] + offset4) % 2 ^ 32
  else
    (leVal [b.getD 4 0, b.getD 3 0, b.getD 2 0, b.getD 1 0, unmark 5 (b.getD 0 0)]
      + offset5) % 2 ^ 32

/-- Decoded length from the first byte for u64, from `decode_len_vu64` in
src/vu64.rs: leading-zero count plus one. -/
def decode_len_vu64 (n : Nat) : Nat := clz8 n + 1

/-- Encoded length for u64, from `encode_len_vu64` in src/vu64.rs. -/
def encode_len_vu64 (n : Nat) : Nat :=
  if n < offset2 then 1
  else if n < offset3 then 2
  else if n < offset4 then 3
  else if n < offset5 then 4
  else if n < offset6 then 5
  else if n < offset7 then 6
  else if n < offset8 then 7
  else if n < offset9 then 8
  else 9

/-- Length-1 arm of `encode_vu64` (src/vu64.rs). -/
def encode_vu64_b1 (n : Nat) : List Nat :=
  [mark 1 (n % 256),
   0,
   0,
   0,
   0,
   0,
   0,
   0,
   0]

/-- Length-2 arm of `encode_vu64` (src/vu64.rs). -/
def encode_vu64_b2 (n : Nat) : List Nat :=
  [mark 2 (subWrap 16 (n % 2 ^ 16) offset2 / 2 ^ 8 % 256),
   subWrap 16 (n % 2 ^ 16) offset2 % 256,
   0,
   0,
   0,
   0,
   0,
   0,
   0]

/-- Length-3 arm of `encode_vu64` (src/vu64.rs). -/
def encode_vu64_b3 (n : Nat) : List Nat :=
  [mark 3 (subWrap 32 (n % 2 ^ 32) offset3 * 2 ^ 8 % 2 ^ 32 / 2 ^ 24 % 256),
   subWrap 32 (n % 2 ^ 32) offset3 * 2 ^ 8 % 2 ^ 32 / 2 ^ 16 % 256,
   subWrap 32 (n % 2 ^ 32) offset3 * 2 ^ 8 % 2 ^ 32 / 2 ^ 8 % 256,
   0,
   0,
   0,
   0,
   0,
   0]

/-- Length-4 arm of `encode_vu64` (src/vu64.rs). -/
def encode_vu64_b4 (n : Nat) : List Nat :=
  [mark 4 (subWrap 32 (n % 2 ^ 32) offset4 / 2 ^ 24 % 256),
   subWrap 32 (n % 2 ^ 32) offset4 / 2 ^ 16 % 256,
   subWrap 32 (n % 2 ^ 32) offset4 / 2 ^ 8 % 256,
   subWrap 32 (n % 2 ^ 32) offset4 % 256,
   0,
   0,
   0,
   0,
   0]

/-- Length-5 arm of `encode_vu64` (src/vu64.rs). -/
def encode_vu64_b5 (n : Nat) : List Nat :=
  [mark 5 (subWrap 64 n offset5 * 2 ^ 24 % 2 ^ 64 / 2 ^ 56 % 256),
   subWrap 64 n offset5 * 2 ^ 24 % 2 ^ 64 / 2 ^ 48 % 256,
   subWrap 64 n offset5 * 2 ^ 24 % 2 ^ 64 / 2 ^ 40 % 256,
   subWrap 64 n offset5 * 2 ^ 24 % 2 ^ 64 / 2 ^ 32 % 256,
   subWrap 64 n offset5 * 2 ^ 24 % 2 ^ 64 / 2 ^ 24 % 256,
   0,
   0,
   0,
   0]

/-- Length-6 arm of `encode_vu64` (src/vu64.rs). -/
def encode_vu64_b6 (n : Nat) : List Nat :=
  [mark 6 (subWrap 64 n offset6 * 2 ^ 16 % 2 ^ 64 / 2 ^ 56 % 256),
   subWrap 64 n offset6 * 2 ^ 16 % 2 ^ 64 / 2 ^ 48 % 256,
   subWrap 64 n offset6 * 2 ^ 16 % 2 ^ 64 / 2 ^ 40 % 256,
   subWrap 64 n offset6 * 2 ^ 16 % 2 ^ 64 / 2 ^ 32 % 256,
   subWrap 64 n offset6 * 2 ^ 16 % 2 ^ 64 / 2 ^ 24 % 256,
   subWrap 64 n offset6 * 2 ^ 16 % 2 ^ 64 / 2 ^ 16 % 256,
   0,
   0,
   0]

/-- Length-7 arm of `encode_vu64` (src/vu64.rs). -/
def encode_vu64_b7 (n : Nat) : List Nat :=
  [mark 7 (subWrap 64 n offset7 * 2 ^ 8 % 2 ^ 64 / 2 ^ 56 % 256),
   subWrap 64 n offset7 * 2 ^ 8 % 2 ^ 64 / 2 ^ 48 % 256,
   subWrap 64 n offset7 * 2 ^ 8 % 2 ^ 64 / 2 ^ 40 % 256,
   subWrap 64 n offset7 * 2 ^ 8 % 2 ^ 64 / 2 ^ 32 % 256,
   subWrap 64 n offset7 * 2 ^ 8 % 2 ^ 64 / 2 ^ 24 % 256,
   subWrap 64 n offset7 * 2 ^ 8 % 2 ^ 64 / 2 ^ 16 % 256,
   subWrap 64 n offset7 * 2 ^ 8 % 2 ^ 64 / 2 ^ 8 % 256,
   0,
   0]

/-- Length-8 arm of `encode_vu64` (src/vu64.rs). -/
def encode_vu64_b8 (n : Nat) : List Nat :=
  [mark 8 (subWrap 64 n offset8 / 2 ^ 56 % 256),
   subWrap 64 n offset8 / 2 ^ 48 % 256,
   subWrap 64 n offset8 / 2 ^ 40 % 256,
   subWrap 64 n offset8 / 2 ^ 32 % 256,
   subWrap 64 n offset8 / 2 ^ 24 % 256,
   subWrap 64 n offset8 / 2 ^ 16 % 256,
   subWrap 64 n offset8 / 2 ^ 8 % 256,
   subWrap 64 n offset8 % 256,
   0]

/-- Length-9 arm of `encode_vu64` (src/vu64.rs): `out_buf[0] = prefix!(9, buf[0])` and `out_buf[i+1] = buf[i]`. -/
def encode_vu64_b9 (n : Nat) : List Nat :=
  [mark 9 (subWrap 64 n offset9 / 2 ^ 56 % 256),
   subWrap 64 n offset9 / 2 ^ 56 % 256,
   subWrap 64 n offset9 / 2 ^ 48 % 256,
   subWrap 64 n offset9 / 2 ^ 40 % 256,
   subWrap 64 n offset9 / 2 ^ 32 % 256,
   subWrap 64 n offset9 / 2 ^ 24 % 256,
   subWrap 64 n offset9 / 2 ^ 16 % 256,
   subWrap 64 n offset9 / 2 ^ 8 % 256,
   subWrap 64 n offset9 % 256]

/-- Encoder for u64, from `encode_vu64` in src/vu64.rs; dispatches on the
encoded length exactly as the source `match`, with one definition per arm. -/
def encode_vu64 (n : Nat) : List Nat :=
  if encode_len_vu64 n = 1 then encode_vu64_b1 n
  else if encode_len_vu64 n = 2 then encode_vu64_b2 n
  else if encode_len_vu64 n = 3 then encode_vu64_b3 n
  else if encode_len_vu64 n = 4 then encode_vu64_b4 n
  else if encode_len_vu64 n = 5 then encode_vu64_b5 n
  else if encode_len_vu64 n = 6 then encode_vu64_b6 n
  else if encode_len_vu64 n = 7 then encode_vu64_b7 n
  else if encode_len_vu64 n = 8 then encode_vu64_b8 n
  else encode_vu64_b9 n

/-- Decoder for u64, from `decode_vu64` in src/vu64.rs; every branch adds
an offset in u64 arithmetic, hence the `% 2^64` (only the 9-byte branch
can actually wrap, on non-canonical input). -/
def decode_vu64 (b : List Nat) : Nat :=
  let len := decode_len_vu64 (b.getD 0 0)
  if len = 1 then unmark 1 (b.getD 0 0)
  else if len = 2 then
    (leVal [b.getD 1 0, unmark 2 (b.getD 0 0)] + offset2) % 2 ^ 64
  else if len = 3 then
    (leVal [b.getD 2 0, b.getD 1 0, unmark 3 (b.getD 0 0)] + offset3) % 2 ^ 64
  else if len = 4 then
    (leVal [b.getD 3 0, b.getD 2 0, b.getD 1 0, unmark 4 (b.getD 0 0)] + offset4) % 2 ^ 64
  else if len = 5 then
    (leVal [b.getD 4 0, b.getD 3 0, b.getD 2 0, b.getD 1 0, unmark 5 (b.getD 0 0)]
      + offset5) % 2 ^ 64
  else if len = 6 then
    (leVal [b.getD 5 0, b.getD 4 0, b.getD 3 0, b.getD 2 0, b.getD 1 0,
      unmark 6 (b.getD 0 0)] + offset6) % 2 ^ 64
  else if len = 7 then
    (leVal [b.getD 6 0, b.getD 5 0, b.getD 4 0, b.getD 3 0, b.getD 2 0, b.getD 1 0,
      unmark 7 (b.getD 0 0)] + offset7) % 2 ^ 64
  else if len = 8 then
    (leVal [b.getD 7 0, b.getD 6 0, b.getD 5 0, b.getD 4 0, b.getD 3 0, b.getD 2 0,
      b.getD 1 0, unmark 8 (b.getD 0 0)] + offset8) % 2 ^ 64
  else
    (leVal [b.getD 8 0, b.getD 7 0, b.getD 6 0, b.getD 5 0, b.getD 4 0, b.getD 3 0,
      b.getD 2 0, b.getD 1 0] + offset9) % 2 ^ 64

/-- Encoded length for u128, from `encode_len_vu128` in src/vu128.rs,
including the 9-byte window test `nine_byte_min ≤ n ≤ nine_byte_max`. -/
def encode_len_vu128 (n : Nat) : Nat :=
  if n < offset2 then 1
  else if n < offset3 then 2
  else if n < offset4 then 3
  else if n < offset5 then 4
  else if n < offset6 then 5
  else if n < offset7 then 6
  else if n < offset8 then 7
  else if n < offset9 then 8
  else if offset9 + 2 ^ 63 ≤ n ∧ n ≤ offset9 + (2 ^ 64 - 1) then 9
  else if n < offset11 then 10
  else if n < offset12 then 11
  else if n < offset13 then 12
  else if n < offset14 then 13
  else if n < offset15 then 14
  else if n < offset16 then 15
  else if n < offset17 then 16
  else 18

/-- Decoded length from the first two bytes for u128, from
`decode_len_vu128` in src/vu128.rs. -/
def decode_len_vu128 (first second : Nat) : Nat :=
  let base_len := clz8 first + 1
  if base_len < 9 then base_len
  else if 128 ≤ second then 9
  else if second = 0 then 18
  else 9 + clz8 second

/-- Length-1 arm of `encode_vu128` (src/vu128.rs). -/
def encode_vu128_b1 (n : Nat) : List Nat :=
  [mark 1 (n % 256),
   0,
   0,
   0,
   0,
   0,
   0,
   0,
   0,
   0,
   0,
   0,
   0,
   0,
   0,
   0,
   0,
   0]

/-- Length-2 arm of `encode_vu128` (src/vu128.rs). -/
def encode_vu128_b2 (n : Nat) : List Nat :=
  [mark 2 (subWrap 128 n offset2 % 2 ^ 16 / 2 ^ 8 % 256),
   subWrap 128 n offset2 % 2 ^ 16 % 256,
   0,
   0,
   0,
   0,
   0,
   0,
   0,
   0,
   0,
   0,
   0,
   0,
   0,
   0,
   0,
   0]

/-- Length-3 arm of `encode_vu128` (src/vu128.rs). -/
def encode_vu128_b3 (n : Nat) : List Nat :=
  [mark 3 (subWrap 128 n offset3 % 2 ^ 32 * 2 ^ 8 % 2 ^ 32 / 2 ^ 24 % 256),
   subWrap 128 n offset3 % 2 ^ 32 * 2 ^ 8 % 2 ^ 32 / 2 ^ 16 % 256,
   subWrap 128 n offset3 % 2 ^ 32 * 2 ^ 8 % 2 ^ 32 / 2 ^ 8 % 256,
   0,
   0,
   0,
   0,
   0,
   0,
   0,
   0,
   0,
   0,
   0,
   0,
   0,
   0,
   0]

/-- Length-4 arm of `encode_vu128` (src/vu128.rs). -/
def encode_vu128_b4 (n : Nat) : List Nat :=
  [mark 4 (subWrap 128 n offset4 % 2 ^ 32 / 2 ^ 24 % 256),
   subWrap 128 n offset4 % 2 ^ 32 / 2 ^ 16 % 256,
   subWrap 128 n offset4 % 2 ^ 32 / 2 ^ 8 % 256,
   subWrap 128 n offset4 % 2 ^ 32 % 256,
   0,
   0,
   0,
   0,
   0,
   0,
   0,
   0,
   0,
   0,
   0,
   0,
   0,
   0]

/-- Length-5 arm of `encode_vu128` (src/vu128.rs). -/
def encode_vu128_b5 (n : Nat) : List Nat :=
  [mark 5 (subWrap 128 n offset5 % 2 ^ 64 * 2 ^ 24 % 2 ^ 64 / 2 ^ 56 % 256),
   subWrap 128 n offset5 % 2 ^ 64 * 2 ^ 24 % 2 ^ 64 / 2 ^ 48 % 256,
   subWrap 128 n offset5 % 2 ^ 64 * 2 ^ 24 % 2 ^ 64 / 2 ^ 40 % 256,
   subWrap 128 n offset5 % 2 ^ 64 * 2 ^ 24 % 2 ^ 64 / 2 ^ 32 % 256,
   subWrap 128 n offset5 % 2 ^ 64 * 2 ^ 24 % 2 ^ 64 / 2 ^ 24 % 256,
   0,
   0,
   0,
   0,
   0,
   0,
   0,
   0,
   0,
   0,
   0,
   0,
   0]

/-- Length-6 arm of `encode_vu128` (src/vu128.rs). -/
def encode_vu128_b6 (n : Nat) : List Nat :=
  [mark 6 (subWrap 128 n offset6 % 2 ^ 64 * 2 ^ 16 % 2 ^ 64 / 2 ^ 56 % 256),
   subWrap 128 n offset6 % 2 ^ 64 * 2 ^ 16 % 2 ^ 64 / 2 ^ 48 % 256,
   subWrap 128 n offset6 % 2 ^ 64 * 2 ^ 16 % 2 ^ 64 / 2 ^ 40 % 256,
   subWrap 128 n offset6 % 2 ^ 64 * 2 ^ 16 % 2 ^ 64 / 2 ^ 32 % 256,
   subWrap 128 n offset6 % 2 ^ 64 * 2 ^ 16 % 2 ^ 64 / 2 ^ 24 % 256,
   subWrap 128 n offset6 % 2 ^ 64 * 2 ^ 16 % 2 ^ 64 / 2 ^ 16 % 256,
   0,
   0,
   0,
   0,
   0,
   0,
   0,
   0,
   0,
   0,
   0,
   0]

/-- Length-7 arm of `encode_vu128` (src/vu128.rs). -/
def encode_vu128_b7 (n : Nat) : List Nat :=
  [mark 7 (subWrap 128 n offset7 % 2 ^ 64 * 2 ^ 8 % 2 ^ 64 / 2 ^ 56 % 256),
   subWrap 128 n offset7 % 2 ^ 64 * 2 ^ 8 % 2 ^ 64 / 2 ^ 48 % 256,
   subWrap 128 n offset7 % 2 ^ 64 * 2 ^ 8 % 2 ^ 64 / 2 ^ 40 % 256,
   subWrap 128 n offset7 % 2 ^ 64 * 2 ^ 8 % 2 ^ 64 / 2 ^ 32 % 256,
   subWrap 128 n offset7 % 2 ^ 64 * 2 ^ 8 % 2 ^ 64 / 2 ^ 24 % 256,
   subWrap 128 n offset7 % 2 ^ 64 * 2 ^ 8 % 2 ^ 64 / 2 ^ 16 % 256,
   subWrap 128 n offset7 % 2 ^ 64 * 2 ^ 8 % 2 ^ 64 / 2 ^ 8 % 256,
   0,
   0,
   0,
   0,
   0,
   0,
   0,
   0,
   0,
   0,
   0]

/-- Length-8 arm of `encode_vu128` (src/vu128.rs). -/
def encode_vu128_b8 (n : Nat) : List Nat :=
  [mark 8 (subWrap 128 n offset8 % 2 ^ 64 / 2 ^ 56 % 256),
   subWrap 128 n offset8 % 2 ^ 64 / 2 ^ 48 % 256,
   subWrap 128 n offset8 % 2 ^ 64 / 2 ^ 40 % 256,
   subWrap 128 n offset8 % 2 ^ 64 / 2 ^ 32 % 256,
   subWrap 128 n offset8 % 2 ^ 64 / 2 ^ 24 % 256,
   subWrap 128 n offset8 % 2 ^ 64 / 2 ^ 16 % 256,
   subWrap 128 n offset8 % 2 ^ 64 / 2 ^ 8 % 256,
   subWrap 128 n offset8 % 2 ^ 64 % 256,
   0,
   0,
   0,
   0,
   0,
   0,
   0,
   0,
   0,
   0]

/-- Length-9 arm of `encode_vu128` (src/vu128.rs): leading byte 0, then the eight body bytes. -/
def encode_vu128_b9 (n : Nat) : List Nat :=
  [0,
   subWrap 128 n offset9 % 2 ^ 64 / 2 ^ 56 % 256,
   subWrap 128 n offset9 % 2 ^ 64 / 2 ^ 48 % 256,
   subWrap 128 n offset9 % 2 ^ 64 / 2 ^ 40 % 256,
   subWrap 128 n offset9 % 2 ^ 64 / 2 ^ 32 % 256,
   subWrap 128 n offset9 % 2 ^ 64 / 2 ^ 24 % 256,
   subWrap 128 n offset9 % 2 ^ 64 / 2 ^ 16 % 256,
   subWrap 128 n offset9 % 2 ^ 64 / 2 ^ 8 % 256,
   subWrap 128 n offset9 % 2 ^ 64 % 256,
   0,
   0,
   0,
   0,
   0,
   0,
   0,
   0,
   0]

/-- Length-10 arm of `encode_vu128` (src/vu128.rs): extended tier, leading byte 0, marker in the second byte. -/
def encode_vu128_b10 (n : Nat) : List Nat :=
  [0,
   mark 2 (subWrap 128 n offset10 / 2 ^ 64 % 256),
   subWrap 128 n offset10 / 2 ^ 56 % 256,
   subWrap 128 n offset10 / 2 ^ 48 % 256,
   subWrap 128 n offset10 / 2 ^ 40 % 256,
   subWrap 128 n offset10 / 2 ^ 32 % 256,
   subWrap 128 n offset10 / 2 ^ 24 % 256,
   subWrap 128 n offset10 / 2 ^ 16 % 256,
   subWrap 128 n offset10 / 2 ^ 8 % 256,
   subWrap 128 n offset10 % 256,
   0,
   0,
   0,
   0,
   0,
   0,
   0,
   0]

/-- Length-11 arm of `encode_vu128` (src/vu128.rs): extended tier, leading byte 0, marker in the second byte. -/
def encode_vu128_b11 (n : Nat) : List Nat :=
  [0,
   mark 3 (subWrap 128 n offset11 / 2 ^ 72 % 256),
   subWrap 128 n offset11 / 2 ^ 64 % 256,
   subWrap 128 n offset11 / 2 ^ 56 % 256,
   subWrap 128 n offset11 / 2 ^ 48 % 256,
   subWrap 128 n offset11 / 2 ^ 40 % 256,
   subWrap 128 n offset11 / 2 ^ 32 % 256,
   subWrap 128 n offset11 / 2 ^ 24 % 256,
   subWrap 128 n offset11 / 2 ^ 16 % 256,
   subWrap 128 n offset11 / 2 ^ 8 % 256,
   subWrap 128 n offset11 % 256,
   0,
   0,
   0,
   0,
   0,
   0,
   0]

/-- Length-12 arm of `encode_vu128` (src/vu128.rs): extended tier, leading byte 0, marker in the second byte. -/
def encode_vu128_b12 (n : Nat) : List Nat :=
  [0,
   mark 4 (subWrap 128 n offset12 / 2 ^ 80 % 256),
   subWrap 128 n offset12 / 2 ^ 72 % 256,
   subWrap 128 n offset12 / 2 ^ 64 % 256,
   subWrap 128 n offset12 / 2 ^ 56 % 256,
   subWrap 128 n offset12 / 2 ^ 48 % 256,
   subWrap 128 n offset12 / 2 ^ 40 % 256,
   subWrap 128 n offset12 / 2 ^ 32 % 256,
   subWrap 128 n offset12 / 2 ^ 24 % 256,
   subWrap 128 n offset12 / 2 ^ 16 % 256,
   subWrap 128 n offset12 / 2 ^ 8 % 256,
   subWrap 128 n offset12 % 256,
   0,
   0,
   0,
   0,
   0,
   0]

/-- Length-13 arm of `encode_vu128` (src/vu128.rs): extended tier, leading byte 0, marker in the second byte. -/
def encode_vu128_b13 (n : Nat) : List Nat :=
  [0,
   mark 5 (subWrap 128 n offset13 / 2 ^ 88 % 256),
   subWrap 128 n offset13 / 2 ^ 80 % 256,
   subWrap 128 n offset13 / 2 ^ 72 % 256,
   subWrap 128 n offset13 / 2 ^ 64 % 256,
   subWrap 128 n offset13 / 2 ^ 56 % 256,
   subWrap 128 n offset13 / 2 ^ 48 % 256,
   subWrap 128 n offset13 / 2 ^ 40 % 256,
   subWrap 128 n offset13 / 2 ^ 32 % 256,
   subWrap 128 n offset13 / 2 ^ 24 % 256,
   subWrap 128 n offset13 / 2 ^ 16 % 256,
   subWrap 128 n offset13 / 2 ^ 8 % 256,
   subWrap 128 n offset13 % 256,
   0,
   0,
   0,
   0,
   0]

/-- Length-14 arm of `encode_vu128` (src/vu128.rs): extended tier, leading byte 0, marker in the second byte. -/
def encode_vu128_b14 (n : Nat) : List Nat :=
  [0,
   mark 6 (subWrap 128 n offset14 / 2 ^ 96 % 256),
   subWrap 128 n offset14 / 2 ^ 88 % 256,
   subWrap 128 n offset14 / 2 ^ 80 % 256,
   subWrap 128 n offset14 / 2 ^ 72 % 256,
   subWrap 128 n offset14 / 2 ^ 64 % 256,
   subWrap 128 n offset14 / 2 ^ 56 % 256,
   subWrap 128 n offset14 / 2 ^ 48 % 256,
   subWrap 128 n offset14 / 2 ^ 40 % 256,
   subWrap 128 n offset14 / 2 ^ 32 % 256,
   subWrap 128 n offset14 / 2 ^ 24 % 256,
   subWrap 128 n offset14 / 2 ^ 16 % 256,
   subWrap 128 n offset14 / 2 ^ 8 % 256,
   subWrap 128 n offset14 % 256,
   0,
   0,
   0,
   0]

/-- Length-15 arm of `encode_vu128` (src/vu128.rs): extended tier, leading byte 0, marker in the second byte. -/
def encode_vu128_b15 (n : Nat) : List Nat :=
  [0,
   mark 7 (subWrap 128 n offset15 / 2 ^ 104 % 256),
   subWrap 128 n offset15 / 2 ^ 96 % 256,
   subWrap 128 n offset15 / 2 ^ 88 % 256,
   subWrap 128 n offset15 / 2 ^ 80 % 256,
   subWrap 128 n offset15 / 2 ^ 72 % 256,
   subWrap 128 n offset15 / 2 ^ 64 % 256,
   subWrap 128 n offset15 / 2 ^ 56 % 256,
   subWrap 128 n offset15 / 2 ^ 48 % 256,
   subWrap 128 n offset15 / 2 ^ 40 % 256,
   subWrap 128 n offset15 / 2 ^ 32 % 256,
   subWrap 128 n offset15 / 2 ^ 24 % 256,
   subWrap 128 n offset15 / 2 ^ 16 % 256,
   subWrap 128 n offset15 / 2 ^ 8 % 256,
   subWrap 128 n offset15 % 256,
   0,
   0,
   0]

/-- Length-16 arm of `encode_vu128` (src/vu128.rs): extended tier, leading byte 0, marker in the second byte. -/
def encode_vu128_b16 (n : Nat) : List Nat :=
  [0,
   mark 8 (subWrap 128 n offset16 / 2 ^ 112 % 256),
   subWrap 128 n offset16 / 2 ^ 104 % 256,
   subWrap 128 n offset16 / 2 ^ 96 % 256,
   subWrap 128 n offset16 / 2 ^ 88 % 256,
   subWrap 128 n offset16 / 2 ^ 80 % 256,
   subWrap 128 n offset16 / 2 ^ 72 % 256,
   subWrap 128 n offset16 / 2 ^ 64 % 256,
   subWrap 128 n offset16 / 2 ^ 56 % 256,
   subWrap 128 n offset16 / 2 ^ 48 % 256,
   subWrap 128 n offset16 / 2 ^ 40 % 256,
   subWrap 128 n offset16 / 2 ^ 32 % 256,
   subWrap 128 n offset16 / 2 ^ 24 % 256,
   subWrap 128 n offset16 / 2 ^ 16 % 256,
   subWrap 128 n offset16 / 2 ^ 8 % 256,
   subWrap 128 n offset16 % 256,
   0,
   0]

/-- Length-18 arm of `encode_vu128` (src/vu128.rs): raw big-endian u128 after two zero bytes. -/
def encode_vu128_b18 (n : Nat) : List Nat :=
  [0,
   0,
   n / 2 ^ 120 % 256,
   n / 2 ^ 112 % 256,
   n / 2 ^ 104 % 256,
   n / 2 ^ 96 % 256,
   n / 2 ^ 88 % 256,
   n / 2 ^ 80 % 256,
   n / 2 ^ 72 % 256,
   n / 2 ^ 64 % 256,
   n / 2 ^ 56 % 256,
   n / 2 ^ 48 % 256,
   n / 2 ^ 40 % 256,
   n / 2 ^ 32 % 256,
   n / 2 ^ 24 % 256,
   n / 2 ^ 16 % 256,
   n / 2 ^ 8 % 256,
   n % 256]

/-- Encoder for u128, from `encode_vu128` in src/vu128.rs; dispatches on
the encoded length exactly as the source `match`, with one definition per
arm.  All offset subtractions are u128 subtractions modelled with
`subWrap 128` (release semantics): every arm's guard makes them exact
except the length-10 arm, whose `n - offset!(10)` underflows for
`n ∈ [offset!(9), offset!(9)+2^63)`. -/
def encode_vu128 (n : Nat) : List Nat :=
  if encode_len_vu128 n = 1 then encode_vu128_b1 n
  else if encode_len_vu128 n = 2 then encode_vu128_b2 n
  else if encode_len_vu128 n = 3 then encode_vu128_b3 n
  else if encode_len_vu128 n = 4 then encode_vu128_b4 n
  else if encode_len_vu128 n = 5 then encode_vu128_b5 n
  else if encode_len_vu128 n = 6 then encode_vu128_b6 n
  else if encode_len_vu128 n = 7 then encode_vu128_b7 n
  else if encode_len_vu128 n = 8 then encode_vu128_b8 n
  else if encode_len_vu128 n = 9 then encode_vu128_b9 n
  else if encode_len_vu128 n = 10 then encode_vu128_b10 n
  else if encode_len_vu128 n = 11 then encode_vu128_b11 n
  else if encode_len_vu128 n = 12 then encode_vu128_b12 n
  else if encode_len_vu128 n = 13 then encode_vu128_b13 n
  else if encode_len_vu128 n = 14 then encode_vu128_b14 n
  else if encode_len_vu128 n = 15 then encode_vu128_b15 n
  else if encode_len_vu128 n = 16 then encode_vu128_b16 n
  else encode_vu128_b18 n

/-- Decoder for u128, from `decode_vu128` in src/vu128.rs; the offset
additions are u128 additions, hence the `% 2^128` (they cannot actually
wrap given the byte bounds). -/
def decode_vu128 (b : List Nat) : Nat :=
  let len := decode_len_vu128 (b.getD 0 0) (b.getD 1 0)
  if len = 1 then unmark 1 (b.getD 0 0)
  else if len = 2 then
    (leVal [b.getD 1 0, unmark 2 (b.getD 0 0)] + offset2) % 2 ^ 128
  else if len = 3 then
    (leVal [b.getD 2 0, b.getD 1 0, unmark 3 (b.getD 0 0)] + offset3) % 2 ^ 128
  else if len = 4 then
    (leVal [b.getD 3 0, b.getD 2 0, b.getD 1 0, unmark 4 (b.getD 0 0)] + offset4) % 2 ^ 128
  else if len = 5 then
    (leVal [b.getD 4 0, b.getD 3 0, b.getD 2 0, b.getD 1 0, unmark 5 (b.getD 0 0)]
      + offset5) % 2 ^ 128
  else if len = 6 then
    (leVal [b.getD 5 0, b.getD 4 0, b.getD 3 0, b.getD 2 0, b.getD 1 0,
      unmark 6 (b.getD 0 0)] + offset6) % 2 ^ 128
  else if len = 7 then
    (leVal [b.getD 6 0, b.getD 5 0, b.getD 4 0, b.getD 3 0, b.getD 2 0, b.getD 1 0,
      unmark 7 (b.getD 0 0)] + offset7) % 2 ^ 128
  else if len = 8 then
    (leVal [b.getD 7 0, b.getD 6 0, b.getD 5 0, b.getD 4 0, b.getD 3 0, b.getD 2 0,
      b.getD 1 0, unmark 8 (b.getD 0 0)] + offset8) % 2 ^ 128
  else if len = 9 then
    (leVal [b.getD 8 0, b.getD 7 0, b.getD 6 0, b.getD 5 0, b.getD 4 0, b.getD 3 0,
      b.getD 2 0, b.getD 1 0] + offset9) % 2 ^ 128
  else if len = 10 then
    (leVal [b.getD 9 0, b.getD 8 0, b.getD 7 0, b.getD 6 0, b.getD 5 0, b.getD 4 0,
      b.getD 3 0, b.getD 2 0, unmark 2 (b.getD 1 0)] + offset10) % 2 ^ 128
  else if len = 11 then
    (leVal [b.getD 10 0, b.getD 9 0, b.getD 8 0, b.getD 7 0, b.getD 6 0, b.getD 5 0,
      b.getD 4 0, b.getD 3 0, b.getD 2 0, unmark 3 (b.getD 1 0)] + offset11) % 2 ^ 128
  else if len = 12 then
    (leVal [b.getD 11 0, b.getD 10 0, b.getD 9 0, b.getD 8 0, b.getD 7 0, b.getD 6 0,
      b.getD 5 0, b.getD 4 0, b.getD 3 0, b.getD 2 0, unmark 4 (b.getD 1 0)]
      + offset12) % 2 ^ 128
  else if len = 13 then
    (leVal [b.getD 12 0, b.getD 11 0, b.getD 10 0, b.getD 9 0, b.getD 8 0, b.getD 7 0,
      b.getD 6 0, b.getD 5 0, b.getD 4 0, b.getD 3 0, b.getD 2 0, unmark 5 (b.getD 1 0)]
      + offset13) % 2 ^ 128
  else if len = 14 then
    (leVal [b.getD 13 0, b.getD 12 0, b.getD 11 0, b.getD 10 0, b.getD 9 0, b.getD 8 0,
      b.getD 7 0, b.getD 6 0, b.getD 5 0, b.getD 4 0, b.getD 3 0, b.getD 2 0,
      unmark 6 (b.getD 1 0)] + offset14) % 2 ^ 128
  else if len = 15 then
    (leVal [b.getD 14 0, b.getD 13 0, b.getD 12 0, b.getD 11 0, b.getD 10 0, b.getD 9 0,
      b.getD 8 0, b.getD 7 0, b.getD 6 0, b.getD 5 0, b.getD 4 0, b.getD 3 0,
      b.getD 2 0, unmark 7 (b.getD 1 0)] + offset15) % 2 ^ 128
  else if len = 16 then
    (leVal [b.getD 15 0, b.getD 14 0, b.getD 13 0, b.getD 12 0, b.getD 11 0,
      b.getD 10 0, b.getD 9 0, b.getD 8 0, b.getD 7 0, b.getD 6 0, b.getD 5 0,
      b.getD 4 0, b.getD 3 0, b.getD 2 0] + offset16) % 2 ^ 128
  else
    leVal [b.getD 17 0, b.getD 16 0, b.getD 15 0, b.getD 14 0, b.getD 13 0,
      b.getD 12 0, b.getD 11 0, b.getD 10 0, b.getD 9 0, b.getD 8 0, b.getD 7 0,
      b.getD 6 0, b.getD 5 0, b.getD 4 0, b.getD 3 0, b.getD 2 0]

/-- Two's-complement bit pattern (as a `Nat`) of a signed value at width
`w`, modelling an `as uW` reinterpretation. -/
def toUw (w : Nat) (n : Int) : Nat := (n % (2 ^ w : Int)).toNat

/-- Signed value of a width-`w` bit pattern, modelling an `as iW`
reinterpretation. -/
def fromUw (w : Nat) (u : Nat) : Int :=
  if u < 2 ^ (w - 1) then (u : Int) else (u : Int) - 2 ^ w

/-- Zigzag encoding for i32, from `zigzag_encode_i32` in src/vi32.rs:
`((n << 1) ^ (n >> 31)) as u32` (`<<` wraps, `>>` is arithmetic, the
xor acts on bit patterns). -/
def zigzag_encode_i32 (n : Int) : Nat :=
  toUw 32 (n * 2) ^^^ toUw 32 (n / (2 ^ 31 : Int))

/-- Zigzag decoding for i32, from `zigzag_decode_i32` in src/vi32.rs:
`((n >> 1) as i32) ^ -((n & 1) as i32)`. -/
def zigzag_decode_i32 (u : Nat) : Int :=
  fromUw 32 ((u / 2) ^^^ toUw 32 (-((u &&& 1 : Nat) : Int)))

/-- Zigzag encoding for i64, from `zigzag_encode_i64` in src/vi64.rs. -/
def zigzag_encode_i64 (n : Int) : Nat :=
  toUw 64 (n * 2) ^^^ toUw 64 (n / (2 ^ 63 : Int))

/-- Zigzag decoding for i64, from `zigzag_decode_i64` in src/vi64.rs. -/
def zigzag_decode_i64 (u : Nat) : Int :=
  fromUw 64 ((u / 2) ^^^ toUw 64 (-((u &&& 1 : Nat) : Int)))

/-- Zigzag encoding for i128, from `zigzag_encode_i128` in src/vi128.rs. -/
def zigzag_encode_i128 (n : Int) : Nat :=
  toUw 128 (n * 2) ^^^ toUw 128 (n / (2 ^ 127 : Int))

/-- Zigzag decoding for i128, from `zigzag_decode_i128` in src/vi128.rs. -/
def zigzag_decode_i128 (u : Nat) : Int :=
  fromUw 128 ((u / 2) ^^^ toUw 128 (-((u &&& 1 : Nat) : Int)))

/-- Spec-side minimal length for the u32 class, following the spec's
words in §8: the smallest `L` with `x ∈ [offset(L), offset(L+1))`, or the
terminal tier (5) if none applies.  Since the offsets strictly increase,
the smallest such `L` is found by the first satisfied upper bound; for
`x < 2^32` the cases `x ≥ offset(5)` all lie in `[offset(5), offset(6))`,
so minimal and terminal agree at 5. -/
def specMinLen32 (x : Nat) : Nat :=
  if x < offset2 then 1
  else if x < offset3 then 2
  else if x < offset4 then 3
  else if x < offset5 then 4
  else 5

/-- Spec-side minimal length for the u64 class (see `specMinLen32`); for
`x < 2^64` the cases `x ≥ offset(9)` all lie in `[offset(9), offset(10))`,
so minimal and terminal agree at 9. -/
def specMinLen64 (x : Nat) : Nat :=
  if x < offset2 then 1
  else if x < offset3 then 2
  else if x < offset4 then 3
  else if x < offset5 then 4
  else if x < offset6 then 5
  else if x < offset7 then 6
  else if x < offset8 then 7
  else if x < offset9 then 8
  else 9

/-- Spec-side minimal length for the u128 class (see `specMinLen32`): the
smallest `L ≤ 16` with `x ∈ [offset(L), offset(L+1))`, and the terminal
18-byte tier for `x ≥ offset(17)`. -/
def specMinLen128 (x : Nat) : Nat :=
  if x < offset2 then 1
  else if x < offset3 then 2
  else if x < offset4 then 3
  else if x < offset5 then 4
  else if x < offset6 then 5
  else if x < offset7 then 6
  else if x < offset8 then 7
  else if x < offset9 then 8
  else if x < offset10 then 9
  else if x < offset11 then 10
  else if x < offset12 then 11
  else if x < offset13 then 12
  else if x < offset14 then 13
  else if x < offset15 then 14
  else if x < offset16 then 15
  else if x < offset17 then 16
  else 18

/-! Helper lemmas. -/

theorem offset2_val : offset2 = 128 := by decide

theorem offset3_val : offset3 = 16512 := by decide

theorem offset4_val : offset4 = 2113664 := by decide

theorem offset5_val : offset5 = 270549120 := by decide

theorem offset6_val : offset6 = 34630287488 := by decide

theorem offset7_val : offset7 = 4432676798592 := by decide

theorem offset8_val : offset8 = 567382630219904 := by decide

theorem offset9_val : offset9 = 72624976668147840 := by decide

theorem offset10_val : offset10 = 18519369050377699456 := by decide

theorem offset11_val : offset11 = 2379702610485200306304 := by decide

theorem offset12_val : offset12 = 304611157514142493982848 := by decide

theorem offset13_val : offset13 = 38990237385182276084580480 := by decide

theorem offset14_val : offset14 = 4990750394526703375681077376 := by decide

theorem offset15_val : offset15 = 638816050508641404124032680064 := by decide

theorem offset16_val : offset16 = 81768454465115323099913037824128 := by decide

theorem offset17_val : offset17 = 10466362171534770580160905696264320 := by decide

/-! Claim theorems. -/

/-- C1.  The round-trip property `decode(encode(x)) == x` fails on the
u128 class: at `x = offset!(10) + 2^70` (which needs 71 payload bits but
the 10-byte tier stores only 70), `decode_vu128 (encode_vu128 x)` returns
`offset!(10)`, not `x`.  This contradicts both the spec and the crate's
own `roundtrip_u128` property test, so the code is at fault. -/
theorem c1_roundtrip_fails_on_vu128 :
    decode_vu128 (encode_vu128 (offset10 + 2 ^ 70)) = offset10 ∧
    decode_vu128 (encode_vu128 (offset10 + 2 ^ 70)) ≠ offset10 + 2 ^ 70 := by
  constructor
  · decide
  · decide

/-- C2.  Encoding is not failure-free: `encode_len_vu128` routes every
`n ∈ [offset!(9), offset!(9)+2^63)` — for example `n = offset!(9)` — to
the length-10 branch, whose subtraction `n - offset!(10)` underflows
because `offset!(10) > n`.  Under release (wrapping) semantics the wrapped
value corrupts the encoding: decoding it yields `offset!(9) + 2^70`. -/
theorem c2_encode_len10_underflow :
    encode_len_vu128 offset9 = 10 ∧
    offset9 < offset10 ∧
    decode_vu128 (encode_vu128 offset9) = offset9 + 2 ^ 70 := by
  refine ⟨by decide, by decide, by decide⟩

/-- C3 counterexample.  The claim says `encode_vu128 (u64::MAX as u128 + 1)`
has length strictly greater than 9; in fact the classifier gives it
length exactly 9, since `2^64` lies inside the 9-byte window
`[offset!(9)+2^63, offset!(9)+2^64-1]`. -/
theorem c3_counterexample :
    encode_len_vu128 (2 ^ 64) = 9 ∧ ¬ 9 < encode_len_vu128 (2 ^ 64) := by
  refine ⟨by decide, by decide⟩

/-- C3 amended.  For the unsigned 128-bit class: `encode(u64::MAX as u128)`
has length 9 (hence at most 9); `encode(u64::MAX as u128 + 1)` also has
length 9 (it lies in the 9-byte window, not above it); and
`encode(u128::MAX)` has length 18 and decodes back to `u128::MAX`. -/
theorem c3_amended_scenarios :
    encode_len_vu128 (2 ^ 64 - 1) = 9 ∧
    encode_len_vu128 (2 ^ 64) = 9 ∧
    encode_len_vu128 (2 ^ 128 - 1) = 18 ∧
    decode_vu128 (encode_vu128 (2 ^ 128 - 1)) = 2 ^ 128 - 1 := by
  refine ⟨by decide, by decide, by decide, by decide⟩

/-- C4 counterexample.  The hand-built 2-byte buffer `[0x40, 0x01]` does
not decode to 1 under `decode_vu64`: the length-2 branch adds the
length-2 offset 128 to the 14-bit payload 1, yielding 129. -/
theorem c4_counterexample :
    decode_vu64 [64, 1, 0, 0, 0, 0, 0, 0, 0] ≠ 1 := by decide

/-- C4 amended.  The hand-built 2-byte buffer `[0x40, 0x01]` is accepted
by the decoder without any validation (its header gives length 2) and
decodes to 129 = payload 1 + offset!(2), not to 1: because of offset
rebasing, a 2-byte encoding of the value 1 does not exist. -/
theorem c4_amended_noncanonical_decode :
    decode_len_vu64 64 = 2 ∧
    decode_vu64 [64, 1, 0, 0, 0, 0, 0, 0, 0] = 129 := by
  refine ⟨by decide, by decide⟩

/-- C5 counterexample.  Encoded length is not monotone on the u128 class:
`offset!(9) < offset!(9) + 2^63`, yet the smaller value gets length 10
and the larger gets length 9. -/
theorem c5_counterexample :
    offset9 < offset9 + 2 ^ 63 ∧
    encode_len_vu128 offset9 = 10 ∧
    encode_len_vu128 (offset9 + 2 ^ 63) = 9 ∧
    ¬ encode_len_vu128 offset9 ≤ encode_len_vu128 (offset9 + 2 ^ 63) := by
  refine ⟨by decide, by decide, by decide, by decide⟩

/-- C6 counterexample.  At `x = offset!(9)` the smallest `L` with
`x ∈ [offset(L), offset(L+1))` is 9, but the encoder's classifier chooses
length 10. -/
theorem c6_counterexample :
    specMinLen128 offset9 = 9 ∧ encode_len_vu128 offset9 ≠ specMinLen128 offset9 := by
  refine ⟨by decide, by decide⟩

/-- C9.  Decode-side length determination follows the leading-zero rule:
for every byte `b`, `decode_len_vu32 b = min (clz8 b + 1) 5`;
`decode_len_vu64 b = clz8 b + 1 ≤ 9`; and for the 128-bit class with a
zero first byte, a second byte `b ≥ 0x80` gives 9, `b ∈ [0x01, 0x7F]`
gives `9 + clz8 b ∈ [10, 16]`, and `b = 0` gives 18. -/
theorem c9_decode_len_rule :
    ∀ b : Nat, b < 256 →
      decode_len_vu32 b = min (clz8 b + 1) 5 ∧
      decode_len_vu64 b = clz8 b + 1 ∧
      decode_len_vu64 b ≤ 9 ∧
      (128 ≤ b → decode_len_vu128 0 b = 9) ∧
      (1 ≤ b → b ≤ 127 →
        decode_len_vu128 0 b = 9 + clz8 b ∧
        10 ≤ decode_len_vu128 0 b ∧ decode_len_vu128 0 b ≤ 16) ∧
      decode_len_vu128 0 0 = 18 := by
  decide

/-- C9 witness at the byte 0x40. -/
theorem c9_decode_len_rule_witness :
    (64 : Nat) < 256 ∧
    (decode_len_vu32 64 = min (clz8 64 + 1) 5 ∧
      decode_len_vu64 64 = clz8 64 + 1 ∧
      decode_len_vu64 64 ≤ 9 ∧
      (128 ≤ 64 → decode_len_vu128 0 64 = 9) ∧
      (1 ≤ 64 → 64 ≤ 127 →
        decode_len_vu128 0 64 = 9 + clz8 64 ∧
        10 ≤ decode_len_vu128 0 64 ∧ decode_len_vu128 0 64 ≤ 16) ∧
      decode_len_vu128 0 0 = 18) :=
  ⟨by decide, c9_decode_len_rule 64 (by decide)⟩

theorem xor_two_mul_add (q r m s : Nat) (hr : r < 2) (hs : s < 2) :
    (2 * q + r) ^^^ (2 * m + s) = 2 * (q ^^^ m) + (r ^^^ s) := by
  have hx : r ^^^ s < 2 := by interval_cases r <;> interval_cases s <;> decide
  apply Nat.eq_of_testBit_eq
  intro i
  cases i with
  | zero =>
    rw [Nat.testBit_xor, Nat.testBit_zero, Nat.testBit_zero, Nat.testBit_zero]
    have h1 : (2 * q + r) % 2 = r := by omega
    have h2 : (2 * m + s) % 2 = s := by omega
    have h3 : (2 * (q ^^^ m) + (r ^^^ s)) % 2 = r ^^^ s := by omega
    rw [h1, h2, h3]
    interval_cases r <;> interval_cases s <;> decide
  | succ i =>
    have e1 : (2 * q + r) / 2 = q := by omega
    have e2 : (2 * m + s) / 2 = m := by omega
    have e3 : (2 * (q ^^^ m) + (r ^^^ s)) / 2 = q ^^^ m := by omega
    rw [Nat.testBit_xor, Nat.testBit_succ, Nat.testBit_succ, Nat.testBit_succ, e1, e2, e3,
      ← Nat.testBit_xor]

theorem xor_all_ones : ∀ w a : Nat, a < 2 ^ w → a ^^^ (2 ^ w - 1) = 2 ^ w - 1 - a := by
  intro w
  induction w with
  | zero =>
    intro a ha
    have h0 : a = 0 := by omega
    subst h0
    decide
  | succ w ih =>
    intro a ha
    have hpow : (2 : Nat) ^ (w + 1) = 2 * 2 ^ w := by rw [pow_succ]; ring
    have hpos : (1 : Nat) ≤ 2 ^ w := Nat.one_le_two_pow
    have h1 : (2 : Nat) ^ (w + 1) - 1 = 2 * (2 ^ w - 1) + 1 := by omega
    have ha2 : a / 2 < 2 ^ w := by omega
    have hmod : a % 2 < 2 := by omega
    have hx1 : (a % 2) ^^^ 1 = 1 - a % 2 := by
      rcases Nat.mod_two_eq_zero_or_one a with h | h <;> rw [h] <;> decide
    calc a ^^^ (2 ^ (w + 1) - 1)
        = (2 * (a / 2) + a % 2) ^^^ (2 * (2 ^ w - 1) + 1) := by
          rw [← h1]; congr 1; omega
      _ = 2 * ((a / 2) ^^^ (2 ^ w - 1)) + ((a % 2) ^^^ 1) :=
          xor_two_mul_add _ _ _ _ hmod (by decide)
      _ = 2 * (2 ^ w - 1 - a / 2) + (1 - a % 2) := by rw [ih _ ha2, hx1]
      _ = 2 ^ (w + 1) - 1 - a := by omega

theorem zigzag_encode_i32_nonneg (n : Int) (h0 : 0 ≤ n) (h1 : n < 2 ^ 31) :
    zigzag_encode_i32 n = 2 * n.toNat := by
  unfold zigzag_encode_i32 toUw
  have e2 : n / ((2 : Int) ^ 31) = 0 := by omega
  rw [e2]
  have e1 : ((n * 2) % ((2 : Int) ^ 32)).toNat = 2 * n.toNat := by omega
  have e3 : (((0 : Int)) % ((2 : Int) ^ 32)).toNat = 0 := by omega
  rw [e1, e3, Nat.xor_zero]

theorem zigzag_encode_i32_neg (n : Int) (h0 : -(2 ^ 31) ≤ n) (h1 : n < 0) :
    zigzag_encode_i32 n = 2 * (-n).toNat - 1 := by
  unfold zigzag_encode_i32 toUw
  have e2 : n / ((2 : Int) ^ 31) = -1 := by omega
  rw [e2]
  have e3 : (((-1 : Int)) % ((2 : Int) ^ 32)).toNat = 2 ^ 32 - 1 := by omega
  rw [e3]
  have hA : ((n * 2) % ((2 : Int) ^ 32)).toNat < 2 ^ 32 := by omega
  rw [xor_all_ones 32 _ hA]
  omega

theorem zigzag_decode_i32_even (u : Nat) (hu : u < 2 ^ 32) (he : u % 2 = 0) :
    zigzag_decode_i32 u = ((u / 2 : Nat) : Int) := by
  unfold zigzag_decode_i32 toUw fromUw
  rw [Nat.and_one_is_mod, he]
  have e3 : ((-(((0 : Nat)) : Int)) % ((2 : Int) ^ 32)).toNat = 0 := by omega
  rw [e3, Nat.xor_zero]
  have h2 : u / 2 < 2 ^ (32 - 1) := by omega
  rw [if_pos h2]

theorem zigzag_decode_i32_odd (u : Nat) (hu : u < 2 ^ 32) (ho : u % 2 = 1) :
    zigzag_decode_i32 u = -((u / 2 : Nat) : Int) - 1 := by
  unfold zigzag_decode_i32 toUw fromUw
  rw [Nat.and_one_is_mod, ho]
  have e3 : ((-(((1 : Nat)) : Int)) % ((2 : Int) ^ 32)).toNat = 2 ^ 32 - 1 := by omega
  rw [e3]
  have hA : u / 2 < 2 ^ 32 := by omega
  rw [xor_all_ones 32 _ hA]
  have h2 : ¬ 2 ^ 32 - 1 - u / 2 < 2 ^ (32 - 1) := by omega
  rw [if_neg h2]
  omega

theorem zz32_roundtrip (n : Int) (h0 : -(2 ^ 31) ≤ n) (h1 : n < 2 ^ 31) :
    zigzag_decode_i32 (zigzag_encode_i32 n) = n := by
  rcases le_or_lt 0 n with hn | hn
  · rw [zigzag_encode_i32_nonneg n hn h1,
      zigzag_decode_i32_even _ (by omega) (by omega)]
    omega
  · rw [zigzag_encode_i32_neg n h0 hn,
      zigzag_decode_i32_odd _ (by omega) (by omega)]
    omega

theorem zz32_parity (n : Int) (h0 : -(2 ^ 31) ≤ n) (h1 : n < 2 ^ 31) :
    zigzag_encode_i32 n % 2 = 0 ↔ 0 ≤ n := by
  rcases le_or_lt 0 n with hn | hn
  · rw [zigzag_encode_i32_nonneg n hn h1]
    omega
  · rw [zigzag_encode_i32_neg n h0 hn]
    omega


theorem zigzag_encode_i64_nonneg (n : Int) (h0 : 0 ≤ n) (h1 : n < 2 ^ 63) :
    zigzag_encode_i64 n = 2 * n.toNat := by
  unfold zigzag_encode_i64 toUw
  have e2 : n / ((2 : Int) ^ 63) = 0 := by omega
  rw [e2]
  have e1 : ((n * 2) % ((2 : Int) ^ 64)).toNat = 2 * n.toNat := by omega
  have e3 : (((0 : Int)) % ((2 : Int) ^ 64)).toNat = 0 := by omega
  rw [e1, e3, Nat.xor_zero]

theorem zigzag_encode_i64_neg (n : Int) (h0 : -(2 ^ 63) ≤ n) (h1 : n < 0) :
    zigzag_encode_i64 n = 2 * (-n).toNat - 1 := by
  unfold zigzag_encode_i64 toUw
  have e2 : n / ((2 : Int) ^ 63) = -1 := by omega
  rw [e2]
  have e3 : (((-1 : Int)) % ((2 : Int) ^ 64)).toNat = 2 ^ 64 - 1 := by omega
  rw [e3]
  have hA : ((n * 2) % ((2 : Int) ^ 64)).toNat < 2 ^ 64 := by omega
  rw [xor_all_ones 64 _ hA]
  omega

theorem zigzag_decode_i64_even (u : Nat) (hu : u < 2 ^ 64) (he : u % 2 = 0) :
    zigzag_decode_i64 u = ((u / 2 : Nat) : Int) := by
  unfold zigzag_decode_i64 toUw fromUw
  rw [Nat.and_one_is_mod, he]
  have e3 : ((-(((0 : Nat)) : Int)) % ((2 : Int) ^ 64)).toNat = 0 := by omega
  rw [e3, Nat.xor_zero]
  have h2 : u / 2 < 2 ^ (64 - 1) := by omega
  rw [if_pos h2]

theorem zigzag_decode_i64_odd (u : Nat) (hu : u < 2 ^ 64) (ho : u % 2 = 1) :
    zigzag_decode_i64 u = -((u / 2 : Nat) : Int) - 1 := by
  unfold zigzag_decode_i64 toUw fromUw
  rw [Nat.and_one_is_mod, ho]
  have e3 : ((-(((1 : Nat)) : Int)) % ((2 : Int) ^ 64)).toNat = 2 ^ 64 - 1 := by omega
  rw [e3]
  have hA : u / 2 < 2 ^ 64 := by omega
  rw [xor_all_ones 64 _ hA]
  have h2 : ¬ 2 ^ 64 - 1 - u / 2 < 2 ^ (64 - 1) := by omega
  rw [if_neg h2]
  omega

theorem zz64_roundtrip (n : Int) (h0 : -(2 ^ 63) ≤ n) (h1 : n < 2 ^ 63) :
    zigzag_decode_i64 (zigzag_encode_i64 n) = n := by
  rcases le_or_lt 0 n with hn | hn
  · rw [zigzag_encode_i64_nonneg n hn h1,
      zigzag_decode_i64_even _ (by omega) (by omega)]
    omega
  · rw [zigzag_encode_i64_neg n h0 hn,
      zigzag_decode_i64_odd _ (by omega) (by omega)]
    omega

theorem zz64_parity (n : Int) (h0 : -(2 ^ 63) ≤ n) (h1 : n < 2 ^ 63) :
    zigzag_encode_i64 n % 2 = 0 ↔ 0 ≤ n := by
  rcases le_or_lt 0 n with hn | hn
  · rw [zigzag_encode_i64_nonneg n hn h1]
    omega
  · rw [zigzag_encode_i64_neg n h0 hn]
    omega


theorem zigzag_encode_i128_nonneg (n : Int) (h0 : 0 ≤ n) (h1 : n < 2 ^ 127) :
    zigzag_encode_i128 n = 2 * n.toNat := by
  unfold zigzag_encode_i128 toUw
  have e2 : n / ((2 : Int) ^ 127) = 0 := by omega
  rw [e2]
  have e1 : ((n * 2) % ((2 : Int) ^ 128)).toNat = 2 * n.toNat := by omega
  have e3 : (((0 : Int)) % ((2 : Int) ^ 128)).toNat = 0 := by omega
  rw [e1, e3, Nat.xor_zero]

theorem zigzag_encode_i128_neg (n : Int) (h0 : -(2 ^ 127) ≤ n) (h1 : n < 0) :
    zigzag_encode_i128 n = 2 * (-n).toNat - 1 := by
  unfold zigzag_encode_i128 toUw
  have e2 : n / ((2 : Int) ^ 127) = -1 := by omega
  rw [e2]
  have e3 : (((-1 : Int)) % ((2 : Int) ^ 128)).toNat = 2 ^ 128 - 1 := by omega
  rw [e3]
  have hA : ((n * 2) % ((2 : Int) ^ 128)).toNat < 2 ^ 128 := by omega
  rw [xor_all_ones 128 _ hA]
  omega

theorem zigzag_decode_i128_even (u : Nat) (hu : u < 2 ^ 128) (he : u % 2 = 0) :
    zigzag_decode_i128 u = ((u / 2 : Nat) : Int) := by
  unfold zigzag_decode_i128 toUw fromUw
  rw [Nat.and_one_is_mod, he]
  have e3 : ((-(((0 : Nat)) : Int)) % ((2 : Int) ^ 128)).toNat = 0 := by omega
  rw [e3, Nat.xor_zero]
  have h2 : u / 2 < 2 ^ (128 - 1) := by omega
  rw [if_pos h2]

theorem zigzag_decode_i128_odd (u : Nat) (hu : u < 2 ^ 128) (ho : u % 2 = 1) :
    zigzag_decode_i128 u = -((u / 2 : Nat) : Int) - 1 := by
  unfold zigzag_decode_i128 toUw fromUw
  rw [Nat.and_one_is_mod, ho]
  have e3 : ((-(((1 : Nat)) : Int)) % ((2 : Int) ^ 128)).toNat = 2 ^ 128 - 1 := by omega
  rw [e3]
  have hA : u / 2 < 2 ^ 128 := by omega
  rw [xor_all_ones 128 _ hA]
  have h2 : ¬ 2 ^ 128 - 1 - u / 2 < 2 ^ (128 - 1) := by omega
  rw [if_neg h2]
  omega

theorem zz128_roundtrip (n : Int) (h0 : -(2 ^ 127) ≤ n) (h1 : n < 2 ^ 127) :
    zigzag_decode_i128 (zigzag_encode_i128 n) = n := by
  rcases le_or_lt 0 n with hn | hn
  · rw [zigzag_encode_i128_nonneg n hn h1,
      zigzag_decode_i128_even _ (by omega) (by omega)]
    omega
  · rw [zigzag_encode_i128_neg n h0 hn,
      zigzag_decode_i128_odd _ (by omega) (by omega)]
    omega

theorem zz128_parity (n : Int) (h0 : -(2 ^ 127) ≤ n) (h1 : n < 2 ^ 127) :
    zigzag_encode_i128 n % 2 = 0 ↔ 0 ≤ n := by
  rcases le_or_lt 0 n with hn | hn
  · rw [zigzag_encode_i128_nonneg n hn h1]
    omega
  · rw [zigzag_encode_i128_neg n h0 hn]
    omega

/-- C8.  The zigzag mapping is a bijection with the documented pattern:
for every in-range signed value of each width, decoding the encoding
gives the value back; 0, -1, 1 map to 0, 1, 2; and the encoded value is
even exactly when the input is non-negative. -/
theorem c8_zigzag_bijection :
    (∀ n : Int, -(2 ^ 31) ≤ n → n < 2 ^ 31 →
      zigzag_decode_i32 (zigzag_encode_i32 n) = n) ∧
    (∀ n : Int, -(2 ^ 63) ≤ n → n < 2 ^ 63 →
      zigzag_decode_i64 (zigzag_encode_i64 n) = n) ∧
    (∀ n : Int, -(2 ^ 127) ≤ n → n < 2 ^ 127 →
      zigzag_decode_i128 (zigzag_encode_i128 n) = n) ∧
    (∀ n : Int, -(2 ^ 31) ≤ n → n < 2 ^ 31 →
      (zigzag_encode_i32 n % 2 = 0 ↔ 0 ≤ n)) ∧
    (∀ n : Int, -(2 ^ 63) ≤ n → n < 2 ^ 63 →
      (zigzag_encode_i64 n % 2 = 0 ↔ 0 ≤ n)) ∧
    (∀ n : Int, -(2 ^ 127) ≤ n → n < 2 ^ 127 →
      (zigzag_encode_i128 n % 2 = 0 ↔ 0 ≤ n)) ∧
    zigzag_encode_i32 0 = 0 ∧ zigzag_encode_i32 (-1) = 1 ∧ zigzag_encode_i32 1 = 2 ∧
    zigzag_encode_i64 0 = 0 ∧ zigzag_encode_i64 (-1) = 1 ∧ zigzag_encode_i64 1 = 2 ∧
    zigzag_encode_i128 0 = 0 ∧ zigzag_encode_i128 (-1) = 1 ∧ zigzag_encode_i128 1 = 2 :=
  ⟨zz32_roundtrip, zz64_roundtrip, zz128_roundtrip, zz32_parity, zz64_parity, zz128_parity,
    by decide, by decide, by decide, by decide, by decide, by decide,
    by decide, by decide, by decide⟩

/-- C8 witness at n = -5 for each width. -/
theorem c8_zigzag_bijection_witness :
    (-(2 ^ 31) ≤ (-5 : Int) ∧ (-5 : Int) < 2 ^ 31 ∧
      zigzag_decode_i32 (zigzag_encode_i32 (-5)) = -5) ∧
    zigzag_decode_i64 (zigzag_encode_i64 (-5)) = -5 ∧
    zigzag_decode_i128 (zigzag_encode_i128 (-5)) = -5 ∧
    (zigzag_encode_i64 (-5) % 2 = 0 ↔ 0 ≤ (-5 : Int)) :=
  ⟨⟨by decide, by decide, c8_zigzag_bijection.1 (-5) (by decide) (by decide)⟩,
    c8_zigzag_bijection.2.1 (-5) (by decide) (by decide),
    c8_zigzag_bijection.2.2.1 (-5) (by decide) (by decide),
    c8_zigzag_bijection.2.2.2.2.1 (-5) (by decide) (by decide)⟩

/-- Interval characterisation of `encode_len_vu128`, with the offsets as
explicit numerals (note the 9-byte window sits above the length-10 gap). -/
theorem encode_len_vu128_spec (x : Nat) :
    (encode_len_vu128 x = 1 ↔ x < 128) ∧
    (encode_len_vu128 x = 2 ↔ 128 ≤ x ∧ x < 16512) ∧
    (encode_len_vu128 x = 3 ↔ 16512 ≤ x ∧ x < 2113664) ∧
    (encode_len_vu128 x = 4 ↔ 2113664 ≤ x ∧ x < 270549120) ∧
    (encode_len_vu128 x = 5 ↔ 270549120 ≤ x ∧ x < 34630287488) ∧
    (encode_len_vu128 x = 6 ↔ 34630287488 ≤ x ∧ x < 4432676798592) ∧
    (encode_len_vu128 x = 7 ↔ 4432676798592 ≤ x ∧ x < 567382630219904) ∧
    (encode_len_vu128 x = 8 ↔ 567382630219904 ≤ x ∧ x < 72624976668147840) ∧
    (encode_len_vu128 x = 9 ↔ 9295997013522923648 ≤ x ∧ x < 18519369050377699456) ∧
    (encode_len_vu128 x = 10 ↔
      (72624976668147840 ≤ x ∧ x < 9295997013522923648) ∨
      (18519369050377699456 ≤ x ∧ x < 2379702610485200306304)) ∧
    (encode_len_vu128 x = 11 ↔ 2379702610485200306304 ≤ x ∧ x < 304611157514142493982848) ∧
    (encode_len_vu128 x = 12 ↔
      304611157514142493982848 ≤ x ∧ x < 38990237385182276084580480) ∧
    (encode_len_vu128 x = 13 ↔
      38990237385182276084580480 ≤ x ∧ x < 4990750394526703375681077376) ∧
    (encode_len_vu128 x = 14 ↔
      4990750394526703375681077376 ≤ x ∧ x < 638816050508641404124032680064) ∧
    (encode_len_vu128 x = 15 ↔
      638816050508641404124032680064 ≤ x ∧ x < 81768454465115323099913037824128) ∧
    (encode_len_vu128 x = 16 ↔
      81768454465115323099913037824128 ≤ x ∧ x < 10466362171534770580160905696264320) ∧
    (encode_len_vu128 x = 18 ↔ 10466362171534770580160905696264320 ≤ x) := by
  have o2 := offset2_val
  have o3 := offset3_val
  have o4 := offset4_val
  have o5 := offset5_val
  have o6 := offset6_val
  have o7 := offset7_val
  have o8 := offset8_val
  have o9 := offset9_val
  have o10 := offset10_val
  have o11 := offset11_val
  have o12 := offset12_val
  have o13 := offset13_val
  have o14 := offset14_val
  have o15 := offset15_val
  have o16 := offset16_val
  have o17 := offset17_val
  by_cases h1 : x < offset2
  · rw [encode_len_vu128, if_pos h1]
    omega
  by_cases h2 : x < offset3
  · rw [encode_len_vu128, if_neg h1, if_pos h2]
    omega
  by_cases h3 : x < offset4
  · rw [encode_len_vu128, if_neg h1, if_neg h2, if_pos h3]
    omega
  by_cases h4 : x < offset5
  · rw [encode_len_vu128, if_neg h1, if_neg h2, if_neg h3, if_pos h4]
    omega
  by_cases h5 : x < offset6
  · rw [encode_len_vu128, if_neg h1, if_neg h2, if_neg h3, if_neg h4, if_pos h5]
    omega
  by_cases h6 : x < offset7
  · rw [encode_len_vu128, if_neg h1, if_neg h2, if_neg h3, if_neg h4, if_neg h5, if_pos h6]
    omega
  by_cases h7 : x < offset8
  · rw [encode_len_vu128, if_neg h1, if_neg h2, if_neg h3, if_neg h4, if_neg h5, if_neg h6, if_pos h7]
    omega
  by_cases h8 : x < offset9
  · rw [encode_len_vu128, if_neg h1, if_neg h2, if_neg h3, if_neg h4, if_neg h5, if_neg h6, if_neg h7, if_pos h8]
    omega
  by_cases h9 : offset9 + 2 ^ 63 ≤ x ∧ x ≤ offset9 + (2 ^ 64 - 1)
  · rw [encode_len_vu128, if_neg h1, if_neg h2, if_neg h3, if_neg h4, if_neg h5, if_neg h6, if_neg h7, if_neg h8, if_pos h9]
    omega
  by_cases h10 : x < offset11
  · rw [encode_len_vu128, if_neg h1, if_neg h2, if_neg h3, if_neg h4, if_neg h5, if_neg h6, if_neg h7, if_neg h8, if_neg h9, if_pos h10]
    omega
  by_cases h11 : x < offset12
  · rw [encode_len_vu128, if_neg h1, if_neg h2, if_neg h3, if_neg h4, if_neg h5, if_neg h6, if_neg h7, if_neg h8, if_neg h9, if_neg h10, if_pos h11]
    omega
  by_cases h12 : x < offset13
  · rw [encode_len_vu128, if_neg h1, if_neg h2, if_neg h3, if_neg h4, if_neg h5, if_neg h6, if_neg h7, if_neg h8, if_neg h9, if_neg h10, if_neg h11, if_pos h12]
    omega
  by_cases h13 : x < offset14
  · rw [encode_len_vu128, if_neg h1, if_neg h2, if_neg h3, if_neg h4, if_neg h5, if_neg h6, if_neg h7, if_neg h8, if_neg h9, if_neg h10, if_neg h11, if_neg h12, if_pos h13]
    omega
  by_cases h14 : x < offset15
  · rw [encode_len_vu128, if_neg h1, if_neg h2, if_neg h3, if_neg h4, if_neg h5, if_neg h6, if_neg h7, if_neg h8, if_neg h9, if_neg h10, if_neg h11, if_neg h12, if_neg h13, if_pos h14]
    omega
  by_cases h15 : x < offset16
  · rw [encode_len_vu128, if_neg h1, if_neg h2, if_neg h3, if_neg h4, if_neg h5, if_neg h6, if_neg h7, if_neg h8, if_neg h9, if_neg h10, if_neg h11, if_neg h12, if_neg h13, if_neg h14, if_pos h15]
    omega
  by_cases h16 : x < offset17
  · rw [encode_len_vu128, if_neg h1, if_neg h2, if_neg h3, if_neg h4, if_neg h5, if_neg h6, if_neg h7, if_neg h8, if_neg h9, if_neg h10, if_neg h11, if_neg h12, if_neg h13, if_neg h14, if_neg h15, if_pos h16]
    omega
  rw [encode_len_vu128, if_neg h1, if_neg h2, if_neg h3, if_neg h4, if_neg h5, if_neg h6, if_neg h7, if_neg h8, if_neg h9, if_neg h10, if_neg h11, if_neg h12, if_neg h13, if_neg h14, if_neg h15, if_neg h16]
  omega

/-- Interval characterisation of `encode_len_vu32`. -/
theorem encode_len_vu32_spec (x : Nat) :
    (encode_len_vu32 x = 1 ↔ x < 128) ∧
    (encode_len_vu32 x = 2 ↔ 128 ≤ x ∧ x < 16512) ∧
    (encode_len_vu32 x = 3 ↔ 16512 ≤ x ∧ x < 2113664) ∧
    (encode_len_vu32 x = 4 ↔ 2113664 ≤ x ∧ x < 270549120) ∧
    (encode_len_vu32 x = 5 ↔ 270549120 ≤ x) := by
  unfold encode_len_vu32
  simp only [offset2_val, offset3_val, offset4_val, offset5_val]
  split_ifs <;> omega

/-- Interval characterisation of `encode_len_vu64`. -/
theorem encode_len_vu64_spec (x : Nat) :
    (encode_len_vu64 x = 1 ↔ x < 128) ∧
    (encode_len_vu64 x = 2 ↔ 128 ≤ x ∧ x < 16512) ∧
    (encode_len_vu64 x = 3 ↔ 16512 ≤ x ∧ x < 2113664) ∧
    (encode_len_vu64 x = 4 ↔ 2113664 ≤ x ∧ x < 270549120) ∧
    (encode_len_vu64 x = 5 ↔ 270549120 ≤ x ∧ x < 34630287488) ∧
    (encode_len_vu64 x = 6 ↔ 34630287488 ≤ x ∧ x < 4432676798592) ∧
    (encode_len_vu64 x = 7 ↔ 4432676798592 ≤ x ∧ x < 567382630219904) ∧
    (encode_len_vu64 x = 8 ↔ 567382630219904 ≤ x ∧ x < 72624976668147840) ∧
    (encode_len_vu64 x = 9 ↔ 72624976668147840 ≤ x) := by
  unfold encode_len_vu64
  simp only [offset2_val, offset3_val, offset4_val, offset5_val, offset6_val,
    offset7_val, offset8_val, offset9_val]
  split_ifs <;> omega

/-- Interval characterisation of `specMinLen128` (the spec's minimal-L
formula), with the offsets as explicit numerals. -/
theorem specMinLen128_spec (x : Nat) :
    (specMinLen128 x = 1 ↔ x < 128) ∧
    (specMinLen128 x = 2 ↔ 128 ≤ x ∧ x < 16512) ∧
    (specMinLen128 x = 3 ↔ 16512 ≤ x ∧ x < 2113664) ∧
    (specMinLen128 x = 4 ↔ 2113664 ≤ x ∧ x < 270549120) ∧
    (specMinLen128 x = 5 ↔ 270549120 ≤ x ∧ x < 34630287488) ∧
    (specMinLen128 x = 6 ↔ 34630287488 ≤ x ∧ x < 4432676798592) ∧
    (specMinLen128 x = 7 ↔ 4432676798592 ≤ x ∧ x < 567382630219904) ∧
    (specMinLen128 x = 8 ↔ 567382630219904 ≤ x ∧ x < 72624976668147840) ∧
    (specMinLen128 x = 9 ↔ 72624976668147840 ≤ x ∧ x < 18519369050377699456) ∧
    (specMinLen128 x = 10 ↔ 18519369050377699456 ≤ x ∧ x < 2379702610485200306304) ∧
    (specMinLen128 x = 11 ↔ 2379702610485200306304 ≤ x ∧ x < 304611157514142493982848) ∧
    (specMinLen128 x = 12 ↔
      304611157514142493982848 ≤ x ∧ x < 38990237385182276084580480) ∧
    (specMinLen128 x = 13 ↔
      38990237385182276084580480 ≤ x ∧ x < 4990750394526703375681077376) ∧
    (specMinLen128 x = 14 ↔
      4990750394526703375681077376 ≤ x ∧ x < 638816050508641404124032680064) ∧
    (specMinLen128 x = 15 ↔
      638816050508641404124032680064 ≤ x ∧ x < 81768454465115323099913037824128) ∧
    (specMinLen128 x = 16 ↔
      81768454465115323099913037824128 ≤ x ∧ x < 10466362171534770580160905696264320) ∧
    (specMinLen128 x = 18 ↔ 10466362171534770580160905696264320 ≤ x) := by
  have o2 := offset2_val
  have o3 := offset3_val
  have o4 := offset4_val
  have o5 := offset5_val
  have o6 := offset6_val
  have o7 := offset7_val
  have o8 := offset8_val
  have o9 := offset9_val
  have o10 := offset10_val
  have o11 := offset11_val
  have o12 := offset12_val
  have o13 := offset13_val
  have o14 := offset14_val
  have o15 := offset15_val
  have o16 := offset16_val
  have o17 := offset17_val
  by_cases h1 : x < offset2
  · rw [specMinLen128, if_pos h1]
    omega
  by_cases h2 : x < offset3
  · rw [specMinLen128, if_neg h1, if_pos h2]
    omega
  by_cases h3 : x < offset4
  · rw [specMinLen128, if_neg h1, if_neg h2, if_pos h3]
    omega
  by_cases h4 : x < offset5
  · rw [specMinLen128, if_neg h1, if_neg h2, if_neg h3, if_pos h4]
    omega
  by_cases h5 : x < offset6
  · rw [specMinLen128, if_neg h1, if_neg h2, if_neg h3, if_neg h4, if_pos h5]
    omega
  by_cases h6 : x < offset7
  · rw [specMinLen128, if_neg h1, if_neg h2, if_neg h3, if_neg h4, if_neg h5, if_pos h6]
    omega
  by_cases h7 : x < offset8
  · rw [specMinLen128, if_neg h1, if_neg h2, if_neg h3, if_neg h4, if_neg h5, if_neg h6, if_pos h7]
    omega
  by_cases h8 : x < offset9
  · rw [specMinLen128, if_neg h1, if_neg h2, if_neg h3, if_neg h4, if_neg h5, if_neg h6, if_neg h7, if_pos h8]
    omega
  by_cases h9 : x < offset10
  · rw [specMinLen128, if_neg h1, if_neg h2, if_neg h3, if_neg h4, if_neg h5, if_neg h6, if_neg h7, if_neg h8, if_pos h9]
    omega
  by_cases h10 : x < offset11
  · rw [specMinLen128, if_neg h1, if_neg h2, if_neg h3, if_neg h4, if_neg h5, if_neg h6, if_neg h7, if_neg h8, if_neg h9, if_pos h10]
    omega
  by_cases h11 : x < offset12
  · rw [specMinLen128, if_neg h1, if_neg h2, if_neg h3, if_neg h4, if_neg h5, if_neg h6, if_neg h7, if_neg h8, if_neg h9, if_neg h10, if_pos h11]
    omega
  by_cases h12 : x < offset13
  · rw [specMinLen128, if_neg h1, if_neg h2, if_neg h3, if_neg h4, if_neg h5, if_neg h6, if_neg h7, if_neg h8, if_neg h9, if_neg h10, if_neg h11, if_pos h12]
    omega
  by_cases h13 : x < offset14
  · rw [specMinLen128, if_neg h1, if_neg h2, if_neg h3, if_neg h4, if_neg h5, if_neg h6, if_neg h7, if_neg h8, if_neg h9, if_neg h10, if_neg h11, if_neg h12, if_pos h13]
    omega
  by_cases h14 : x < offset15
  · rw [specMinLen128, if_neg h1, if_neg h2, if_neg h3, if_neg h4, if_neg h5, if_neg h6, if_neg h7, if_neg h8, if_neg h9, if_neg h10, if_neg h11, if_neg h12, if_neg h13, if_pos h14]
    omega
  by_cases h15 : x < offset16
  · rw [specMinLen128, if_neg h1, if_neg h2, if_neg h3, if_neg h4, if_neg h5, if_neg h6, if_neg h7, if_neg h8, if_neg h9, if_neg h10, if_neg h11, if_neg h12, if_neg h13, if_neg h14, if_pos h15]
    omega
  by_cases h16 : x < offset17
  · rw [specMinLen128, if_neg h1, if_neg h2, if_neg h3, if_neg h4, if_neg h5, if_neg h6, if_neg h7, if_neg h8, if_neg h9, if_neg h10, if_neg h11, if_neg h12, if_neg h13, if_neg h14, if_neg h15, if_pos h16]
    omega
  rw [specMinLen128, if_neg h1, if_neg h2, if_neg h3, if_neg h4, if_neg h5, if_neg h6, if_neg h7, if_neg h8, if_neg h9, if_neg h10, if_neg h11, if_neg h12, if_neg h13, if_neg h14, if_neg h15, if_neg h16]
  omega

set_option maxHeartbeats 2000000 in
/-- C5 amended.  Length monotonicity holds on the u32 and u64 classes;
on the u128 class it holds for every pair except those straddling the
9-byte window from below: when `x1 ∈ [offset(9), offset(9)+2^63)` (length
10, via the underflowing extended tier) and
`x2 ∈ [offset(9)+2^63, offset(10))` (length 9). -/
theorem c5_amended_monotonicity :
    ∀ x1 x2 : Nat, x1 < x2 →
      (x2 < 2 ^ 32 → encode_len_vu32 x1 ≤ encode_len_vu32 x2) ∧
      (x2 < 2 ^ 64 → encode_len_vu64 x1 ≤ encode_len_vu64 x2) ∧
      (x2 < 2 ^ 128 →
        ¬ (offset9 ≤ x1 ∧ x1 < offset9 + 2 ^ 63 ∧
           offset9 + 2 ^ 63 ≤ x2 ∧ x2 < offset10) →
        encode_len_vu128 x1 ≤ encode_len_vu128 x2) := by
  intro x1 x2 h
  refine ⟨fun _ => ?_, fun _ => ?_, fun _ hex => ?_⟩
  · have s1 := encode_len_vu32_spec x1
    have s2 := encode_len_vu32_spec x2
    omega
  · have s1 := encode_len_vu64_spec x1
    have s2 := encode_len_vu64_spec x2
    omega
  · have o9 := offset9_val
    have o10 := offset10_val
    have s1 := encode_len_vu128_spec x1
    have s2 := encode_len_vu128_spec x2
    omega

/-- C5 witness: a concrete non-exceptional pair in each class. -/
theorem c5_amended_monotonicity_witness :
    (200 : Nat) < 300 ∧
    (encode_len_vu32 200 ≤ encode_len_vu32 300 ∧
     encode_len_vu64 200 ≤ encode_len_vu64 300 ∧
     encode_len_vu128 200 ≤ encode_len_vu128 300) :=
  ⟨by decide,
    (c5_amended_monotonicity 200 300 (by decide)).1 (by decide),
    (c5_amended_monotonicity 200 300 (by decide)).2.1 (by decide),
    (c5_amended_monotonicity 200 300 (by decide)).2.2 (by decide) (by decide)⟩

set_option maxHeartbeats 2000000 in
/-- C6 amended.  For u32 and u64 the encoder picks exactly the spec's
minimal length (the classifiers coincide with the minimal-L formula);
for u128 it does so except on the gap `[offset(9), offset(9)+2^63)`,
where the minimal L would be 9 but the encoder picks 10 (the 9-byte tier
is reserved for bodies with the top bit set). -/
theorem c6_amended_minimality :
    ∀ x : Nat,
      encode_len_vu32 x = specMinLen32 x ∧
      encode_len_vu64 x = specMinLen64 x ∧
      encode_len_vu128 x =
        (if offset9 ≤ x ∧ x < offset9 + 2 ^ 63 then 10 else specMinLen128 x) := by
  intro x
  refine ⟨rfl, rfl, ?_⟩
  have o9 := offset9_val
  have s := encode_len_vu128_spec x
  have m := specMinLen128_spec x
  by_cases hg : offset9 ≤ x ∧ x < offset9 + 2 ^ 63
  · rw [if_pos hg]
    omega
  · rw [if_neg hg]
    omega

/-- C6 witness at x = 1000 (and at the u128 tier boundary 2^64). -/
theorem c6_amended_minimality_witness :
    (encode_len_vu32 1000 = specMinLen32 1000 ∧
     encode_len_vu64 1000 = specMinLen64 1000 ∧
     encode_len_vu128 1000 =
       (if offset9 ≤ 1000 ∧ 1000 < offset9 + 2 ^ 63 then 10 else specMinLen128 1000)) :=
  c6_amended_minimality 1000

theorem getD_zero (a : Nat) (l : List Nat) : (a :: l).getD 0 0 = a := rfl

theorem getD_one (a b : Nat) (l : List Nat) : (a :: b :: l).getD 1 0 = b := rfl

theorem clz8_mark : ∀ L, L < 10 → 1 ≤ L → ∀ t, t < 256 → clz8 (mark L t) = L - 1 := by
  decide

theorem mark_bounds : ∀ K, K < 9 → 2 ≤ K → ∀ t, t < 256 →
    1 ≤ mark K t ∧ mark K t < 128 := by
  decide

theorem decode_len_vu32_mark : ∀ L, L < 6 → 1 ≤ L → ∀ t, t < 256 →
    decode_len_vu32 (mark L t) = L := by
  decide

theorem decode_len_vu64_mark : ∀ L, L < 10 → 1 ≤ L → ∀ t, t < 256 →
    decode_len_vu64 (mark L t) = L := by
  decide

theorem decode_len_vu128_low (L t s : Nat) (h1 : 1 ≤ L) (h2 : L ≤ 8) (ht : t < 256) :
    decode_len_vu128 (mark L t) s = L := by
  have hc := clz8_mark L (by omega) h1 t ht
  simp only [decode_len_vu128]
  rw [hc, if_pos (by omega : L - 1 + 1 < 9)]
  omega

theorem decode_len_vu128_nine (s : Nat) (hs : 128 ≤ s) :
    decode_len_vu128 0 s = 9 := by
  simp only [decode_len_vu128]
  rw [show clz8 0 = 8 from by decide, if_neg (by decide : ¬ (8:Nat) + 1 < 9), if_pos hs]

theorem decode_len_vu128_ext (K t : Nat) (h2 : 2 ≤ K) (h8 : K ≤ 8) (ht : t < 256) :
    decode_len_vu128 0 (mark K t) = K + 8 := by
  have hc := clz8_mark K (by omega) (by omega) t ht
  have hb := mark_bounds K (by omega) h2 t ht
  simp only [decode_len_vu128]
  rw [show clz8 0 = 8 from by decide, if_neg (by decide : ¬ (8:Nat) + 1 < 9),
    if_neg (by omega : ¬ 128 ≤ mark K t), if_neg (by omega : ¬ mark K t = 0), hc]
  omega

theorem hb32_1 (n : Nat) (h : encode_len_vu32 n = 1) :
    decode_len_vu32 ((encode_vu32 n).getD 0 0) = 1 := by
  rw [encode_vu32, h, if_pos (rfl : (1:Nat) = 1)]
  simp only [encode_vu32_b1]
  rw [getD_zero]
  exact decode_len_vu32_mark 1 (by decide) (by decide) _ (Nat.mod_lt _ (by decide))

theorem hb32_2 (n : Nat) (h : encode_len_vu32 n = 2) :
    decode_len_vu32 ((encode_vu32 n).getD 0 0) = 2 := by
  rw [encode_vu32, h, if_neg (by decide : ¬ (2:Nat) = 1), if_pos (rfl : (2:Nat) = 2)]
  simp only [encode_vu32_b2]
  rw [getD_zero]
  exact decode_len_vu32_mark 2 (by decide) (by decide) _ (Nat.mod_lt _ (by decide))

theorem hb32_3 (n : Nat) (h : encode_len_vu32 n = 3) :
    decode_len_vu32 ((encode_vu32 n).getD 0 0) = 3 := by
  rw [encode_vu32, h, if_neg (by decide : ¬ (3:Nat) = 1), if_neg (by decide : ¬ (3:Nat) = 2), if_pos (rfl : (3:Nat) = 3)]
  simp only [encode_vu32_b3]
  rw [getD_zero]
  exact decode_len_vu32_mark 3 (by decide) (by decide) _ (Nat.mod_lt _ (by decide))

theorem hb32_4 (n : Nat) (h : encode_len_vu32 n = 4) :
    decode_len_vu32 ((encode_vu32 n).getD 0 0) = 4 := by
  rw [encode_vu32, h, if_neg (by decide : ¬ (4:Nat) = 1), if_neg (by decide : ¬ (4:Nat) = 2), if_neg (by decide : ¬ (4:Nat) = 3), if_pos (rfl : (4:Nat) = 4)]
  simp only [encode_vu32_b4]
  rw [getD_zero]
  exact decode_len_vu32_mark 4 (by decide) (by decide) _ (Nat.mod_lt _ (by decide))

theorem hb32_5 (n : Nat) (h : encode_len_vu32 n = 5) :
    decode_len_vu32 ((encode_vu32 n).getD 0 0) = 5 := by
  rw [encode_vu32, h, if_neg (by decide : ¬ (5:Nat) = 1), if_neg (by decide : ¬ (5:Nat) = 2), if_neg (by decide : ¬ (5:Nat) = 3), if_neg (by decide : ¬ (5:Nat) = 4)]
  simp only [encode_vu32_b5]
  rw [getD_zero]
  exact decode_len_vu32_mark 5 (by decide) (by decide) _ (Nat.mod_lt _ (by decide))

theorem header_vu32 (n : Nat) :
    decode_len_vu32 ((encode_vu32 n).getD 0 0) = encode_len_vu32 n := by
  have hcase : encode_len_vu32 n = 1 ∨ encode_len_vu32 n = 2 ∨ encode_len_vu32 n = 3 ∨
      encode_len_vu32 n = 4 ∨ encode_len_vu32 n = 5 := by
    have s := encode_len_vu32_spec n
    omega
  rcases hcase with h | h | h | h | h <;> rw [h]
  · exact hb32_1 n h
  · exact hb32_2 n h
  · exact hb32_3 n h
  · exact hb32_4 n h
  · exact hb32_5 n h

theorem hb64_1 (n : Nat) (h : encode_len_vu64 n = 1) :
    decode_len_vu64 ((encode_vu64 n).getD 0 0) = 1 := by
  rw [encode_vu64, h, if_pos (rfl : (1:Nat) = 1)]
  simp only [encode_vu64_b1]
  rw [getD_zero]
  exact decode_len_vu64_mark 1 (by decide) (by decide) _ (Nat.mod_lt _ (by decide))

theorem hb64_2 (n : Nat) (h : encode_len_vu64 n = 2) :
    decode_len_vu64 ((encode_vu64 n).getD 0 0) = 2 := by
  rw [encode_vu64, h, if_neg (by decide : ¬ (2:Nat) = 1), if_pos (rfl : (2:Nat) = 2)]
  simp only [encode_vu64_b2]
  rw [getD_zero]
  exact decode_len_vu64_mark 2 (by decide) (by decide) _ (Nat.mod_lt _ (by decide))

theorem hb64_3 (n : Nat) (h : encode_len_vu64 n = 3) :
    decode_len_vu64 ((encode_vu64 n).getD 0 0) = 3 := by
  rw [encode_vu64, h, if_neg (by decide : ¬ (3:Nat) = 1), if_neg (by decide : ¬ (3:Nat) = 2), if_pos (rfl : (3:Nat) = 3)]
  simp only [encode_vu64_b3]
  rw [getD_zero]
  exact decode_len_vu64_mark 3 (by decide) (by decide) _ (Nat.mod_lt _ (by decide))

theorem hb64_4 (n : Nat) (h : encode_len_vu64 n = 4) :
    decode_len_vu64 ((encode_vu64 n).getD 0 0) = 4 := by
  rw [encode_vu64, h, if_neg (by decide : ¬ (4:Nat) = 1), if_neg (by decide : ¬ (4:Nat) = 2), if_neg (by decide : ¬ (4:Nat) = 3), if_pos (rfl : (4:Nat) = 4)]
  simp only [encode_vu64_b4]
  rw [getD_zero]
  exact decode_len_vu64_mark 4 (by decide) (by decide) _ (Nat.mod_lt _ (by decide))

theorem hb64_5 (n : Nat) (h : encode_len_vu64 n = 5) :
    decode_len_vu64 ((encode_vu64 n).getD 0 0) = 5 := by
  rw [encode_vu64, h, if_neg (by decide : ¬ (5:Nat) = 1), if_neg (by decide : ¬ (5:Nat) = 2), if_neg (by decide : ¬ (5:Nat) = 3), if_neg (by decide : ¬ (5:Nat) = 4), if_pos (rfl : (5:Nat) = 5)]
  simp only [encode_vu64_b5]
  rw [getD_zero]
  exact decode_len_vu64_mark 5 (by decide) (by decide) _ (Nat.mod_lt _ (by decide))

theorem hb64_6 (n : Nat) (h : encode_len_vu64 n = 6) :
    decode_len_vu64 ((encode_vu64 n).getD 0 0) = 6 := by
  rw [encode_vu64, h, if_neg (by decide : ¬ (6:Nat) = 1), if_neg (by decide : ¬ (6:Nat) = 2), if_neg (by decide : ¬ (6:Nat) = 3), if_neg (by decide : ¬ (6:Nat) = 4), if_neg (by decide : ¬ (6:Nat) = 5), if_pos (rfl : (6:Nat) = 6)]
  simp only [encode_vu64_b6]
  rw [getD_zero]
  exact decode_len_vu64_mark 6 (by decide) (by decide) _ (Nat.mod_lt _ (by decide))

theorem hb64_7 (n : Nat) (h : encode_len_vu64 n = 7) :
    decode_len_vu64 ((encode_vu64 n).getD 0 0) = 7 := by
  rw [encode_vu64, h, if_neg (by decide : ¬ (7:Nat) = 1), if_neg (by decide : ¬ (7:Nat) = 2), if_neg (by decide : ¬ (7:Nat) = 3), if_neg (by decide : ¬ (7:Nat) = 4), if_neg (by decide : ¬ (7:Nat) = 5), if_neg (by decide : ¬ (7:Nat) = 6), if_pos (rfl : (7:Nat) = 7)]
  simp only [encode_vu64_b7]
  rw [getD_zero]
  exact decode_len_vu64_mark 7 (by decide) (by decide) _ (Nat.mod_lt _ (by decide))

theorem hb64_8 (n : Nat) (h : encode_len_vu64 n = 8) :
    decode_len_vu64 ((encode_vu64 n).getD 0 0) = 8 := by
  rw [encode_vu64, h, if_neg (by decide : ¬ (8:Nat) = 1), if_neg (by decide : ¬ (8:Nat) = 2), if_neg (by decide : ¬ (8:Nat) = 3), if_neg (by decide : ¬ (8:Nat) = 4), if_neg (by decide : ¬ (8:Nat) = 5), if_neg (by decide : ¬ (8:Nat) = 6), if_neg (by decide : ¬ (8:Nat) = 7), if_pos (rfl : (8:Nat) = 8)]
  simp only [encode_vu64_b8]
  rw [getD_zero]
  exact decode_len_vu64_mark 8 (by decide) (by decide) _ (Nat.mod_lt _ (by decide))

theorem hb64_9 (n : Nat) (h : encode_len_vu64 n = 9) :
    decode_len_vu64 ((encode_vu64 n).getD 0 0) = 9 := by
  rw [encode_vu64, h, if_neg (by decide : ¬ (9:Nat) = 1), if_neg (by decide : ¬ (9:Nat) = 2), if_neg (by decide : ¬ (9:Nat) = 3), if_neg (by decide : ¬ (9:Nat) = 4), if_neg (by decide : ¬ (9:Nat) = 5), if_neg (by decide : ¬ (9:Nat) = 6), if_neg (by decide : ¬ (9:Nat) = 7), if_neg (by decide : ¬ (9:Nat) = 8)]
  simp only [encode_vu64_b9]
  rw [getD_zero]
  exact decode_len_vu64_mark 9 (by decide) (by decide) _ (Nat.mod_lt _ (by decide))

theorem header_vu64 (n : Nat) :
    decode_len_vu64 ((encode_vu64 n).getD 0 0) = encode_len_vu64 n := by
  have hcase : encode_len_vu64 n = 1 ∨ encode_len_vu64 n = 2 ∨ encode_len_vu64 n = 3 ∨
      encode_len_vu64 n = 4 ∨ encode_len_vu64 n = 5 ∨ encode_len_vu64 n = 6 ∨
      encode_len_vu64 n = 7 ∨ encode_len_vu64 n = 8 ∨ encode_len_vu64 n = 9 := by
    have s := encode_len_vu64_spec n
    omega
  rcases hcase with h | h | h | h | h | h | h | h | h <;> rw [h]
  · exact hb64_1 n h
  · exact hb64_2 n h
  · exact hb64_3 n h
  · exact hb64_4 n h
  · exact hb64_5 n h
  · exact hb64_6 n h
  · exact hb64_7 n h
  · exact hb64_8 n h
  · exact hb64_9 n h

theorem hb128_1 (n : Nat) (h : encode_len_vu128 n = 1) :
    decode_len_vu128 ((encode_vu128 n).getD 0 0) ((encode_vu128 n).getD 1 0) = 1 := by
  rw [encode_vu128, h, if_pos (rfl : (1:Nat) = 1)]
  simp only [encode_vu128_b1]
  rw [getD_zero, getD_one]
  exact decode_len_vu128_low 1 _ _ (by decide) (by decide) (Nat.mod_lt _ (by decide))

theorem hb128_2 (n : Nat) (h : encode_len_vu128 n = 2) :
    decode_len_vu128 ((encode_vu128 n).getD 0 0) ((encode_vu128 n).getD 1 0) = 2 := by
  rw [encode_vu128, h, if_neg (by decide : ¬ (2:Nat) = 1), if_pos (rfl : (2:Nat) = 2)]
  simp only [encode_vu128_b2]
  rw [getD_zero, getD_one]
  exact decode_len_vu128_low 2 _ _ (by decide) (by decide) (Nat.mod_lt _ (by decide))

theorem hb128_3 (n : Nat) (h : encode_len_vu128 n = 3) :
    decode_len_vu128 ((encode_vu128 n).getD 0 0) ((encode_vu128 n).getD 1 0) = 3 := by
  rw [encode_vu128, h, if_neg (by decide : ¬ (3:Nat) = 1), if_neg (by decide : ¬ (3:Nat) = 2), if_pos (rfl : (3:Nat) = 3)]
  simp only [encode_vu128_b3]
  rw [getD_zero, getD_one]
  exact decode_len_vu128_low 3 _ _ (by decide) (by decide) (Nat.mod_lt _ (by decide))

theorem hb128_4 (n : Nat) (h : encode_len_vu128 n = 4) :
    decode_len_vu128 ((encode_vu128 n).getD 0 0) ((encode_vu128 n).getD 1 0) = 4 := by
  rw [encode_vu128, h, if_neg (by decide : ¬ (4:Nat) = 1), if_neg (by decide : ¬ (4:Nat) = 2), if_neg (by decide : ¬ (4:Nat) = 3), if_pos (rfl : (4:Nat) = 4)]
  simp only [encode_vu128_b4]
  rw [getD_zero, getD_one]
  exact decode_len_vu128_low 4 _ _ (by decide) (by decide) (Nat.mod_lt _ (by decide))

theorem hb128_5 (n : Nat) (h : encode_len_vu128 n = 5) :
    decode_len_vu128 ((encode_vu128 n).getD 0 0) ((encode_vu128 n).getD 1 0) = 5 := by
  rw [encode_vu128, h, if_neg (by decide : ¬ (5:Nat) = 1), if_neg (by decide : ¬ (5:Nat) = 2), if_neg (by decide : ¬ (5:Nat) = 3), if_neg (by decide : ¬ (5:Nat) = 4), if_pos (rfl : (5:Nat) = 5)]
  simp only [encode_vu128_b5]
  rw [getD_zero, getD_one]
  exact decode_len_vu128_low 5 _ _ (by decide) (by decide) (Nat.mod_lt _ (by decide))

theorem hb128_6 (n : Nat) (h : encode_len_vu128 n = 6) :
    decode_len_vu128 ((encode_vu128 n).getD 0 0) ((encode_vu128 n).getD 1 0) = 6 := by
  rw [encode_vu128, h, if_neg (by decide : ¬ (6:Nat) = 1), if_neg (by decide : ¬ (6:Nat) = 2), if_neg (by decide : ¬ (6:Nat) = 3), if_neg (by decide : ¬ (6:Nat) = 4), if_neg (by decide : ¬ (6:Nat) = 5), if_pos (rfl : (6:Nat) = 6)]
  simp only [encode_vu128_b6]
  rw [getD_zero, getD_one]
  exact decode_len_vu128_low 6 _ _ (by decide) (by decide) (Nat.mod_lt _ (by decide))

theorem hb128_7 (n : Nat) (h : encode_len_vu128 n = 7) :
    decode_len_vu128 ((encode_vu128 n).getD 0 0) ((encode_vu128 n).getD 1 0) = 7 := by
  rw [encode_vu128, h, if_neg (by decide : ¬ (7:Nat) = 1), if_neg (by decide : ¬ (7:Nat) = 2), if_neg (by decide : ¬ (7:Nat) = 3), if_neg (by decide : ¬ (7:Nat) = 4), if_neg (by decide : ¬ (7:Nat) = 5), if_neg (by decide : ¬ (7:Nat) = 6), if_pos (rfl : (7:Nat) = 7)]
  simp only [encode_vu128_b7]
  rw [getD_zero, getD_one]
  exact decode_len_vu128_low 7 _ _ (by decide) (by decide) (Nat.mod_lt _ (by decide))

theorem hb128_8 (n : Nat) (h : encode_len_vu128 n = 8) :
    decode_len_vu128 ((encode_vu128 n).getD 0 0) ((encode_vu128 n).getD 1 0) = 8 := by
  rw [encode_vu128, h, if_neg (by decide : ¬ (8:Nat) = 1), if_neg (by decide : ¬ (8:Nat) = 2), if_neg (by decide : ¬ (8:Nat) = 3), if_neg (by decide : ¬ (8:Nat) = 4), if_neg (by decide : ¬ (8:Nat) = 5), if_neg (by decide : ¬ (8:Nat) = 6), if_neg (by decide : ¬ (8:Nat) = 7), if_pos (rfl : (8:Nat) = 8)]
  simp only [encode_vu128_b8]
  rw [getD_zero, getD_one]
  exact decode_len_vu128_low 8 _ _ (by decide) (by decide) (Nat.mod_lt _ (by decide))

theorem hb128_9 (n : Nat) (h : encode_len_vu128 n = 9) :
    decode_len_vu128 ((encode_vu128 n).getD 0 0) ((encode_vu128 n).getD 1 0) = 9 := by
  rw [encode_vu128, h, if_neg (by decide : ¬ (9:Nat) = 1), if_neg (by decide : ¬ (9:Nat) = 2), if_neg (by decide : ¬ (9:Nat) = 3), if_neg (by decide : ¬ (9:Nat) = 4), if_neg (by decide : ¬ (9:Nat) = 5), if_neg (by decide : ¬ (9:Nat) = 6), if_neg (by decide : ¬ (9:Nat) = 7), if_neg (by decide : ¬ (9:Nat) = 8), if_pos (rfl : (9:Nat) = 9)]
  simp only [encode_vu128_b9]
  rw [getD_zero, getD_one]
  have hw : 9295997013522923648 ≤ n ∧ n < 18519369050377699456 := by
    have s := encode_len_vu128_spec n
    omega
  have o9 := offset9_val
  have hge : 128 ≤ subWrap 128 n offset9 % 2 ^ 64 / 2 ^ 56 % 256 := by
    unfold subWrap
    omega
  exact decode_len_vu128_nine _ hge

theorem hb128_10 (n : Nat) (h : encode_len_vu128 n = 10) :
    decode_len_vu128 ((encode_vu128 n).getD 0 0) ((encode_vu128 n).getD 1 0) = 10 := by
  rw [encode_vu128, h, if_neg (by decide : ¬ (10:Nat) = 1), if_neg (by decide : ¬ (10:Nat) = 2), if_neg (by decide : ¬ (10:Nat) = 3), if_neg (by decide : ¬ (10:Nat) = 4), if_neg (by decide : ¬ (10:Nat) = 5), if_neg (by decide : ¬ (10:Nat) = 6), if_neg (by decide : ¬ (10:Nat) = 7), if_neg (by decide : ¬ (10:Nat) = 8), if_neg (by decide : ¬ (10:Nat) = 9), if_pos (rfl : (10:Nat) = 10)]
  simp only [encode_vu128_b10]
  rw [getD_zero, getD_one]
  exact decode_len_vu128_ext 2 _ (by decide) (by decide) (Nat.mod_lt _ (by decide))

theorem hb128_11 (n : Nat) (h : encode_len_vu128 n = 11) :
    decode_len_vu128 ((encode_vu128 n).getD 0 0) ((encode_vu128 n).getD 1 0) = 11 := by
  rw [encode_vu128, h, if_neg (by decide : ¬ (11:Nat) = 1), if_neg (by decide : ¬ (11:Nat) = 2), if_neg (by decide : ¬ (11:Nat) = 3), if_neg (by decide : ¬ (11:Nat) = 4), if_neg (by decide : ¬ (11:Nat) = 5), if_neg (by decide : ¬ (11:Nat) = 6), if_neg (by decide : ¬ (11:Nat) = 7), if_neg (by decide : ¬ (11:Nat) = 8), if_neg (by decide : ¬ (11:Nat) = 9), if_neg (by decide : ¬ (11:Nat) = 10), if_pos (rfl : (11:Nat) = 11)]
  simp only [encode_vu128_b11]
  rw [getD_zero, getD_one]
  exact decode_len_vu128_ext 3 _ (by decide) (by decide) (Nat.mod_lt _ (by decide))

theorem hb128_12 (n : Nat) (h : encode_len_vu128 n = 12) :
    decode_len_vu128 ((encode_vu128 n).getD 0 0) ((encode_vu128 n).getD 1 0) = 12 := by
  rw [encode_vu128, h, if_neg (by decide : ¬ (12:Nat) = 1), if_neg (by decide : ¬ (12:Nat) = 2), if_neg (by decide : ¬ (12:Nat) = 3), if_neg (by decide : ¬ (12:Nat) = 4), if_neg (by decide : ¬ (12:Nat) = 5), if_neg (by decide : ¬ (12:Nat) = 6), if_neg (by decide : ¬ (12:Nat) = 7), if_neg (by decide : ¬ (12:Nat) = 8), if_neg (by decide : ¬ (12:Nat) = 9), if_neg (by decide : ¬ (12:Nat) = 10), if_neg (by decide : ¬ (12:Nat) = 11), if_pos (rfl : (12:Nat) = 12)]
  simp only [encode_vu128_b12]
  rw [getD_zero, getD_one]
  exact decode_len_vu128_ext 4 _ (by decide) (by decide) (Nat.mod_lt _ (by decide))

theorem hb128_13 (n : Nat) (h : encode_len_vu128 n = 13) :
    decode_len_vu128 ((encode_vu128 n).getD 0 0) ((encode_vu128 n).getD 1 0) = 13 := by
  rw [encode_vu128, h, if_neg (by decide : ¬ (13:Nat) = 1), if_neg (by decide : ¬ (13:Nat) = 2), if_neg (by decide : ¬ (13:Nat) = 3), if_neg (by decide : ¬ (13:Nat) = 4), if_neg (by decide : ¬ (13:Nat) = 5), if_neg (by decide : ¬ (13:Nat) = 6), if_neg (by decide : ¬ (13:Nat) = 7), if_neg (by decide : ¬ (13:Nat) = 8), if_neg (by decide : ¬ (13:Nat) = 9), if_neg (by decide : ¬ (13:Nat) = 10), if_neg (by decide : ¬ (13:Nat) = 11), if_neg (by decide : ¬ (13:Nat) = 12), if_pos (rfl : (13:Nat) = 13)]
  simp only [encode_vu128_b13]
  rw [getD_zero, getD_one]
  exact decode_len_vu128_ext 5 _ (by decide) (by decide) (Nat.mod_lt _ (by decide))

theorem hb128_14 (n : Nat) (h : encode_len_vu128 n = 14) :
    decode_len_vu128 ((encode_vu128 n).getD 0 0) ((encode_vu128 n).getD 1 0) = 14 := by
  rw [encode_vu128, h, if_neg (by decide : ¬ (14:Nat) = 1), if_neg (by decide : ¬ (14:Nat) = 2), if_neg (by decide : ¬ (14:Nat) = 3), if_neg (by decide : ¬ (14:Nat) = 4), if_neg (by decide : ¬ (14:Nat) = 5), if_neg (by decide : ¬ (14:Nat) = 6), if_neg (by decide : ¬ (14:Nat) = 7), if_neg (by decide : ¬ (14:Nat) = 8), if_neg (by decide : ¬ (14:Nat) = 9), if_neg (by decide : ¬ (14:Nat) = 10), if_neg (by decide : ¬ (14:Nat) = 11), if_neg (by decide : ¬ (14:Nat) = 12), if_neg (by decide : ¬ (14:Nat) = 13), if_pos (rfl : (14:Nat) = 14)]
  simp only [encode_vu128_b14]
  rw [getD_zero, getD_one]
  exact decode_len_vu128_ext 6 _ (by decide) (by decide) (Nat.mod_lt _ (by decide))

theorem hb128_15 (n : Nat) (h : encode_len_vu128 n = 15) :
    decode_len_vu128 ((encode_vu128 n).getD 0 0) ((encode_vu128 n).getD 1 0) = 15 := by
  rw [encode_vu128, h, if_neg (by decide : ¬ (15:Nat) = 1), if_neg (by decide : ¬ (15:Nat) = 2), if_neg (by decide : ¬ (15:Nat) = 3), if_neg (by decide : ¬ (15:Nat) = 4), if_neg (by decide : ¬ (15:Nat) = 5), if_neg (by decide : ¬ (15:Nat) = 6), if_neg (by decide : ¬ (15:Nat) = 7), if_neg (by decide : ¬ (15:Nat) = 8), if_neg (by decide : ¬ (15:Nat) = 9), if_neg (by decide : ¬ (15:Nat) = 10), if_neg (by decide : ¬ (15:Nat) = 11), if_neg (by decide : ¬ (15:Nat) = 12), if_neg (by decide : ¬ (15:Nat) = 13), if_neg (by decide : ¬ (15:Nat) = 14), if_pos (rfl : (15:Nat) = 15)]
  simp only [encode_vu128_b15]
  rw [getD_zero, getD_one]
  exact decode_len_vu128_ext 7 _ (by decide) (by decide) (Nat.mod_lt _ (by decide))

theorem hb128_16 (n : Nat) (h : encode_len_vu128 n = 16) :
    decode_len_vu128 ((encode_vu128 n).getD 0 0) ((encode_vu128 n).getD 1 0) = 16 := by
  rw [encode_vu128, h, if_neg (by decide : ¬ (16:Nat) = 1), if_neg (by decide : ¬ (16:Nat) = 2), if_neg (by decide : ¬ (16:Nat) = 3), if_neg (by decide : ¬ (16:Nat) = 4), if_neg (by decide : ¬ (16:Nat) = 5), if_neg (by decide : ¬ (16:Nat) = 6), if_neg (by decide : ¬ (16:Nat) = 7), if_neg (by decide : ¬ (16:Nat) = 8), if_neg (by decide : ¬ (16:Nat) = 9), if_neg (by decide : ¬ (16:Nat) = 10), if_neg (by decide : ¬ (16:Nat) = 11), if_neg (by decide : ¬ (16:Nat) = 12), if_neg (by decide : ¬ (16:Nat) = 13), if_neg (by decide : ¬ (16:Nat) = 14), if_neg (by decide : ¬ (16:Nat) = 15), if_pos (rfl : (16:Nat) = 16)]
  simp only [encode_vu128_b16]
  rw [getD_zero, getD_one]
  exact decode_len_vu128_ext 8 _ (by decide) (by decide) (Nat.mod_lt _ (by decide))

theorem hb128_18 (n : Nat) (h : encode_len_vu128 n = 18) :
    decode_len_vu128 ((encode_vu128 n).getD 0 0) ((encode_vu128 n).getD 1 0) = 18 := by
  rw [encode_vu128, h, if_neg (by decide : ¬ (18:Nat) = 1), if_neg (by decide : ¬ (18:Nat) = 2), if_neg (by decide : ¬ (18:Nat) = 3), if_neg (by decide : ¬ (18:Nat) = 4), if_neg (by decide : ¬ (18:Nat) = 5), if_neg (by decide : ¬ (18:Nat) = 6), if_neg (by decide : ¬ (18:Nat) = 7), if_neg (by decide : ¬ (18:Nat) = 8), if_neg (by decide : ¬ (18:Nat) = 9), if_neg (by decide : ¬ (18:Nat) = 10), if_neg (by decide : ¬ (18:Nat) = 11), if_neg (by decide : ¬ (18:Nat) = 12), if_neg (by decide : ¬ (18:Nat) = 13), if_neg (by decide : ¬ (18:Nat) = 14), if_neg (by decide : ¬ (18:Nat) = 15), if_neg (by decide : ¬ (18:Nat) = 16)]
  simp only [encode_vu128_b18]
  rw [getD_zero, getD_one]
  decide

theorem header_vu128 (n : Nat) :
    decode_len_vu128 ((encode_vu128 n).getD 0 0) ((encode_vu128 n).getD 1 0) =
      encode_len_vu128 n := by
  have hcase : encode_len_vu128 n = 1 ∨
      encode_len_vu128 n = 2 ∨
      encode_len_vu128 n = 3 ∨
      encode_len_vu128 n = 4 ∨
      encode_len_vu128 n = 5 ∨
      encode_len_vu128 n = 6 ∨
      encode_len_vu128 n = 7 ∨
      encode_len_vu128 n = 8 ∨
      encode_len_vu128 n = 9 ∨
      encode_len_vu128 n = 10 ∨
      encode_len_vu128 n = 11 ∨
      encode_len_vu128 n = 12 ∨
      encode_len_vu128 n = 13 ∨
      encode_len_vu128 n = 14 ∨
      encode_len_vu128 n = 15 ∨
      encode_len_vu128 n = 16 ∨
      encode_len_vu128 n = 18 := by
    have s := encode_len_vu128_spec n
    omega
  rcases hcase with h | h | h | h | h | h | h | h | h | h | h | h | h | h | h | h | h <;> rw [h]
  · exact hb128_1 n h
  · exact hb128_2 n h
  · exact hb128_3 n h
  · exact hb128_4 n h
  · exact hb128_5 n h
  · exact hb128_6 n h
  · exact hb128_7 n h
  · exact hb128_8 n h
  · exact hb128_9 n h
  · exact hb128_10 n h
  · exact hb128_11 n h
  · exact hb128_12 n h
  · exact hb128_13 n h
  · exact hb128_14 n h
  · exact hb128_15 n h
  · exact hb128_16 n h
  · exact hb128_18 n h

/-- C7.  Header determinism: for every value of a supported class, the
length computed from only the leading byte (leading two bytes for the
128-bit class) of the encoder's output equals the length the encoder
chose. -/
theorem c7_header_determinism :
    ∀ n : Nat,
      (n < 2 ^ 32 → decode_len_vu32 ((encode_vu32 n).getD 0 0) = encode_len_vu32 n) ∧
      (n < 2 ^ 64 → decode_len_vu64 ((encode_vu64 n).getD 0 0) = encode_len_vu64 n) ∧
      (n < 2 ^ 128 →
        decode_len_vu128 ((encode_vu128 n).getD 0 0) ((encode_vu128 n).getD 1 0) =
          encode_len_vu128 n) :=
  fun n => ⟨fun _ => header_vu32 n, fun _ => header_vu64 n, fun _ => header_vu128 n⟩

/-- C7 witness at n = 300 (a 2-byte value in every class). -/
theorem c7_header_determinism_witness :
    (300 : Nat) < 2 ^ 32 ∧
    decode_len_vu32 ((encode_vu32 300).getD 0 0) = encode_len_vu32 300 ∧
    decode_len_vu64 ((encode_vu64 300).getD 0 0) = encode_len_vu64 300 ∧
    decode_len_vu128 ((encode_vu128 300).getD 0 0) ((encode_vu128 300).getD 1 0) =
      encode_len_vu128 300 :=
  ⟨by decide, (c7_header_determinism 300).1 (by decide),
    (c7_header_determinism 300).2.1 (by decide),
    (c7_header_determinism 300).2.2 (by decide)⟩

/-- C10.  The u32 decoder's terminal branch is total and reduces modulo
2^32: for any 5 bytes whose first byte has at least 4 leading zeros (so
the derived length is 5), the decoder returns the 35-bit big-endian
payload (low 3 bits of byte 0, then bytes 1..4) plus offset!(5), reduced
modulo 2^32. -/
theorem c10_decode_vu32_terminal :
    ∀ b0 b1 b2 b3 b4 : Nat, b0 < 256 → b1 < 256 → b2 < 256 → b3 < 256 → b4 < 256 →
      4 ≤ clz8 b0 →
      decode_vu32 [b0, b1, b2, b3, b4] =
        (b0 % 8 * 2 ^ 32 + b1 * 2 ^ 24 + b2 * 2 ^ 16 + b3 * 2 ^ 8 + b4 + offset5) % 2 ^ 32 := by
  intro b0 b1 b2 b3 b4 hb0 hb1 hb2 hb3 hb4 hclz
  have hlen : decode_len_vu32 b0 = 5 := by
    have key : ∀ b, b < 256 → 4 ≤ clz8 b → decode_len_vu32 b = 5 := by decide
    exact key b0 hb0 hclz
  have hand : b0 &&& 7 = b0 % 8 := by
    have key : ∀ b, b < 256 → b &&& 7 = b % 8 := by decide
    exact key b0 hb0
  have e0 : ([b0, b1, b2, b3, b4] : List Nat).getD 0 0 = b0 := rfl
  have e1 : ([b0, b1, b2, b3, b4] : List Nat).getD 1 0 = b1 := rfl
  have e2 : ([b0, b1, b2, b3, b4] : List Nat).getD 2 0 = b2 := rfl
  have e3 : ([b0, b1, b2, b3, b4] : List Nat).getD 3 0 = b3 := rfl
  have e4 : ([b0, b1, b2, b3, b4] : List Nat).getD 4 0 = b4 := rfl
  have hu : unmark 5 b0 = b0 &&& 7 := rfl
  simp only [decode_vu32]
  rw [e0, e1, e2, e3, e4, hlen,
    if_neg (by decide : ¬ (5:Nat) = 1), if_neg (by decide : ¬ (5:Nat) = 2),
    if_neg (by decide : ¬ (5:Nat) = 3), if_neg (by decide : ¬ (5:Nat) = 4)]
  simp only [leVal]
  rw [hu, hand, offset5_val]
  omega

/-- C10 witness on the buffer [8, 1, 2, 3, 4]. -/
theorem c10_decode_vu32_terminal_witness :
    (8 : Nat) < 256 ∧ 4 ≤ clz8 8 ∧
    decode_vu32 [8, 1, 2, 3, 4] =
      (8 % 8 * 2 ^ 32 + 1 * 2 ^ 24 + 2 * 2 ^ 16 + 3 * 2 ^ 8 + 4 + offset5) % 2 ^ 32 :=
  ⟨by decide, by decide,
    c10_decode_vu32_terminal 8 1 2 3 4 (by decide) (by decide) (by decide) (by decide)
      (by decide) (by decide)⟩
